import Mathlib

/-
Verification of the report-generation orchestration core of the
ai-football-rag repository: the session store, request throttle,
TTL response cache, retry policy of the external-data client, the
progress tracker and the four-stage pipeline orchestrator.

Each definition is a shallow embedding of the corresponding
TypeScript source construct; the file name of the source is noted
next to each definition.
-/

set_option maxRecDepth 4096

/-! ## Generic keyed-record helpers

JavaScript object/Map assignment semantics: writing key k replaces the
existing entry in place when present, otherwise appends a new entry. -/

/-- JS record assignment obj[k] = v on an association list: replace the
existing entry in place when the key is present, otherwise append. -/
def recordSet {α : Type} : List (String × α) → String → α → List (String × α)
  | [], k, v => [(k, v)]
  | p :: rest, k, v =>
    if p.1 == k then (k, v) :: rest else p :: recordSet rest k v

/-- JS Map.delete on an association list. -/
def recordDelete {α : Type} (m : List (String × α)) (k : String) :
    List (String × α) :=
  m.filter (fun p => p.1 != k)

theorem lookup_recordSet_self {α : Type} (m : List (String × α)) (k : String)
    (v : α) : (recordSet m k v).lookup k = some v := by
  induction m with
  | nil => simp [recordSet, List.lookup]
  | cons p rest ih =>
    obtain ⟨a, b⟩ := p
    by_cases h : a = k
    · simp [recordSet, h, List.lookup]
    · have hb : (a == k) = false := by simp [h]
      have hb2 : (k == a) = false := by
        simpa using Ne.symm h
      simp [recordSet, hb, List.lookup, hb2, ih]

theorem lookup_recordSet_ne {α : Type} (m : List (String × α)) (k kq : String)
    (v : α) (h : kq ≠ k) : (recordSet m k v).lookup kq = m.lookup kq := by
  induction m with
  | nil =>
    have : (kq == k) = false := by simp [h]
    simp [recordSet, List.lookup, this]
  | cons p rest ih =>
    obtain ⟨a, b⟩ := p
    by_cases ha : a = k
    · have h2 : (kq == a) = false := by simp [ha, h]
      have h3 : (kq == k) = false := by simp [h]
      simp [recordSet, ha, List.lookup, h2, h3]
    · have hb : (a == k) = false := by simp [ha]
      by_cases hq : kq = a
      · simp [recordSet, hb, List.lookup, hq]
      · have h2 : (kq == a) = false := by simp [hq]
        simp [recordSet, hb, List.lookup, h2, ih]

theorem length_recordSet_new {α : Type} (m : List (String × α)) (k : String)
    (v : α) (h : m.lookup k = none) :
    (recordSet m k v).length = m.length + 1 := by
  induction m with
  | nil => simp [recordSet]
  | cons p rest ih =>
    obtain ⟨a, b⟩ := p
    by_cases ha : k = a
    · exfalso
      simp [List.lookup, ha] at h
    · have h2 : (k == a) = false := by simp [ha]
      have hb : (a == k) = false := by
        simpa using Ne.symm ha
      simp only [List.lookup, h2] at h
      simp only [recordSet, hb, if_neg]
      simp [ih (by simpa using h)]

/-! ## Session data model (src/lib/session/types.ts) -/

/-- Session status state machine values. -/
inductive SessionStatus
  | pending
  | generating
  | completed
  | error
deriving DecidableEq, Repr

/-- One chat turn record. -/
structure ChatMessage where
  role : String
  content : String
  timestamp : Nat
deriving DecidableEq, Repr

/-- Structured per-signal result stored under a composite key. -/
structure PartialReport where
  categoryId : String
  signalId : String
  title : String
  insights : List String
  narrative : String
  emoji : String
  confidence : Rat
deriving DecidableEq, Repr

/-- One section of a merged category report. -/
structure ReportSection where
  title : String
  content : String
  emoji : String
deriving DecidableEq, Repr

/-- Merged per-category result. -/
structure CategoryReport where
  categoryId : String
  title : String
  sections : List ReportSection
  talkingPoints : List String
deriving DecidableEq, Repr

/-- Fixture team record (id and name are all the orchestrator reads). -/
structure Team where
  id : Nat
  name : String
deriving DecidableEq, Repr

/-- Fixture league record. -/
structure League where
  id : Nat
  name : String
  season : Nat
deriving DecidableEq, Repr

/-- The primary data fragment: the fixture core record. -/
structure Fixture where
  home : Team
  away : Team
  league : League
  date : String
deriving DecidableEq, Repr

/-- Sparse record of named external-data fragments. Fragments other than
the fixture are opaque payloads as far as the core is concerned. -/
structure CollectedData where
  fixture : Option Fixture := none
  statistics : Option String := none
  injuries : Option String := none
  lineups : Option String := none
  h2h : Option String := none
  standings : Option String := none
deriving DecidableEq, Repr

/-- A Partial update of CollectedData; present fields overwrite. -/
structure CollectedDataPatch where
  fixture : Option Fixture := none
  statistics : Option String := none
  injuries : Option String := none
  lineups : Option String := none
  h2h : Option String := none
  standings : Option String := none
deriving DecidableEq, Repr

/-- JS object spread of a patch over the current collected data. -/
def mergeCollected (cd : CollectedData) (p : CollectedDataPatch) :
    CollectedData :=
  { fixture := match p.fixture with | some f => some f | none => cd.fixture
    statistics := match p.statistics with | some d => some d | none => cd.statistics
    injuries := match p.injuries with | some d => some d | none => cd.injuries
    lineups := match p.lineups with | some d => some d | none => cd.lineups
    h2h := match p.h2h with | some d => some d | none => cd.h2h
    standings := match p.standings with | some d => some d | none => cd.standings }

/-- The unit of orchestration state. -/
structure Session where
  sessionId : String
  fixtureId : Nat
  createdAt : Nat
  status : SessionStatus
  error : Option String := none
  collectedData : CollectedData := {}
  partialReports : List (String × PartialReport) := []
  categoryReports : List (String × CategoryReport) := []
  finalReport : Option String := none
  chatHistory : List ChatMessage := []
deriving DecidableEq, Repr

/-- UpdateSessionParams from src/lib/session/types.ts. -/
structure UpdateSessionParams where
  status : Option SessionStatus := none
  error : Option String := none
  collectedData : Option CollectedDataPatch := none
  partialReport : Option (String × PartialReport) := none
  categoryReport : Option (String × CategoryReport) := none
  finalReport : Option String := none
  chatMessage : Option ChatMessage := none
deriving DecidableEq, Repr

/-- The mutation body of SessionManager.updateSession
(src/lib/session/manager, lines applying each update field). The string
fields keep the JS truthiness guards: an empty error or finalReport
string is skipped, because the empty string is falsy. -/
def applyUpdates (s : Session) (u : UpdateSessionParams) : Session :=
  let s1 := match u.status with
    | some st => { s with status := st }
    | none => s
  let s2 := match u.error with
    | some e => if e == "" then s1 else { s1 with error := some e }
    | none => s1
  let s3 := match u.collectedData with
    | some p => { s2 with collectedData := mergeCollected s2.collectedData p }
    | none => s2
  let s4 := match u.partialReport with
    | some kr => { s3 with partialReports := recordSet s3.partialReports kr.1 kr.2 }
    | none => s3
  let s5 := match u.categoryReport with
    | some kr => { s4 with categoryReports := recordSet s4.categoryReports kr.1 kr.2 }
    | none => s4
  let s6 := match u.finalReport with
    | some f => if f == "" then s5 else { s5 with finalReport := some f }
    | none => s5
  match u.chatMessage with
  | some m => { s6 with chatHistory := s6.chatHistory ++ [m] }
  | none => s6

/-- The in-memory session map with its TTL (class SessionManager). -/
structure SessionManager where
  sessions : List (String × Session)
  ttl : Nat
deriving DecidableEq, Repr

/-- SessionManager.deleteSession. -/
def SessionManager.deleteSession (st : SessionManager) (id : String) :
    SessionManager :=
  { st with sessions := recordDelete st.sessions id }

/-- SessionManager.getSession: absent sessions and sessions past their
TTL read as null; expiry deletes lazily. -/
def SessionManager.getSession (st : SessionManager) (now : Nat) (id : String) :
    Option Session × SessionManager :=
  match st.sessions.lookup id with
  | none => (none, st)
  | some s =>
    if st.ttl < now - s.createdAt then (none, st.deleteSession id)
    else (some s, st)

/-- SessionManager.updateSession: read the current stored session, apply
the field-level updates, store the result back under the same id. -/
def SessionManager.updateSession (st : SessionManager) (now : Nat) (id : String)
    (u : UpdateSessionParams) : Bool × SessionManager :=
  match st.getSession now id with
  | (none, st1) => (false, st1)
  | (some s, st1) =>
    (true, { st1 with sessions := recordSet st1.sessions id (applyUpdates s u) })

/-! ## Claim C1: no lost updates in partialResults -/

/-- Convenience: the update carrying exactly one partial-report write,
as issued by a stage-2 signal task (src/lib/orchestrator/generator.ts,
lines 248-253). -/
def partialReportUpdate (k : String) (r : PartialReport) :
    UpdateSessionParams :=
  { partialReport := some (k, r) }

theorem applyUpdates_partialReport (s : Session) (k : String)
    (r : PartialReport) :
    applyUpdates s (partialReportUpdate k r) =
      { s with partialReports := recordSet s.partialReports k r } := rfl

/-- C1: for every session and every interleaving of concurrent stage-2
signal-task writes, the final partialResults map contains exactly one
entry per successfully completed task. Each updateSession call reads the
current stored session and inserts the report under its composite key
(an update-by-key, not a wholesale replace), so an arbitrary ordering ws
of the task writes - which is exactly what an interleaving of the atomic
store updates amounts to - leaves every written key present with its own
report, grows the map by exactly one entry per task, and preserves every
key present before the stage. -/
theorem c1_no_lost_updates (st : SessionManager) (id : String) (s : Session)
    (ws : List (Nat × String × PartialReport))
    (hs : st.sessions.lookup id = some s)
    (hnodup : (ws.map (fun w => w.2.1)).Nodup)
    (hfresh : ∀ w ∈ ws, s.partialReports.lookup w.2.1 = none)
    (htime : ∀ w ∈ ws, w.1 - s.createdAt ≤ st.ttl) :
    ∃ sq,
      (ws.foldl
        (fun acc w =>
          (acc.updateSession w.1 id (partialReportUpdate w.2.1 w.2.2)).2)
        st).sessions.lookup id = some sq
      ∧ (∀ w ∈ ws, sq.partialReports.lookup w.2.1 = some w.2.2)
      ∧ sq.partialReports.length = s.partialReports.length + ws.length
      ∧ (∀ k, (s.partialReports.lookup k).isSome →
          sq.partialReports.lookup k = s.partialReports.lookup k) := by
  induction ws generalizing st s with
  | nil =>
    exact ⟨s, hs, by simp, by simp, fun k _ => rfl⟩
  | cons w rest ih =>
    obtain ⟨t0, k0, r0⟩ := w
    have hne : ¬ st.ttl < t0 - s.createdAt := by
      have := htime (t0, k0, r0) (List.mem_cons_self _ _)
      omega
    have hstep :
        (st.updateSession t0 id (partialReportUpdate k0 r0)).2 =
          { st with sessions :=
              (recordSet st.sessions id
                ({ s with partialReports := recordSet s.partialReports k0 r0 })) } := by
      simp [SessionManager.updateSession, SessionManager.getSession, hs, hne,
        applyUpdates_partialReport]
    set s1 : Session := { s with partialReports := recordSet s.partialReports k0 r0 }
    set st1 : SessionManager := { st with sessions := recordSet st.sessions id s1 }
    have hk0 : k0 ∉ rest.map (fun w => w.2.1) := by
      have := hnodup
      simp only [List.map, List.nodup_cons] at this
      exact this.1
    have hrestnodup : (rest.map (fun w => w.2.1)).Nodup := by
      have := hnodup
      simp only [List.map, List.nodup_cons] at this
      exact this.2
    have hs1 : st1.sessions.lookup id = some s1 :=
      lookup_recordSet_self st.sessions id s1
    have hfresh1 : ∀ w ∈ rest, s1.partialReports.lookup w.2.1 = none := by
      intro w hw
      have hne0 : w.2.1 ≠ k0 := by
        intro he
        exact hk0 (he ▸ List.mem_map_of_mem (fun w => w.2.1) hw)
      have := lookup_recordSet_ne s.partialReports k0 w.2.1 r0 hne0
      simp only [s1]
      rw [this]
      exact hfresh w (List.mem_cons_of_mem _ hw)
    have htime1 : ∀ w ∈ rest, w.1 - s1.createdAt ≤ st1.ttl := by
      intro w hw
      exact htime w (List.mem_cons_of_mem _ hw)
    obtain ⟨sq, hq1, hq2, hq3, hq4⟩ := ih st1 s1 hs1 hrestnodup hfresh1 htime1
    refine ⟨sq, ?_, ?_, ?_, ?_⟩
    · simpa [hstep] using hq1
    · intro w hw
      rcases List.mem_cons.mp hw with he | hmem
      · subst he
        have hins : s1.partialReports.lookup k0 = some r0 :=
          lookup_recordSet_self s.partialReports k0 r0
        have := hq4 k0 (by simp [hins])
        simpa [hins] using this
      · exact hq2 w hmem
    · have hlen1 : s1.partialReports.length = s.partialReports.length + 1 :=
        length_recordSet_new s.partialReports k0 r0
          (hfresh (t0, k0, r0) (List.mem_cons_self _ _))
      rw [hq3, hlen1]
      simp
      omega
    · intro k hk
      have hkne : k ≠ k0 := by
        intro he
        have := hfresh (t0, k0, r0) (List.mem_cons_self _ _)
        rw [he, this] at hk
        simp at hk
      have h1 : s1.partialReports.lookup k = s.partialReports.lookup k := by
        simp only [s1]
        exact lookup_recordSet_ne s.partialReports k0 k r0 hkne
      have := hq4 k (by rw [h1]; exact hk)
      rw [this, h1]

/-- A concrete session for witnesses. -/
def wSession : Session :=
  { sessionId := "sess-1", fixtureId := 12345, createdAt := 1000,
    status := SessionStatus.generating }

/-- A concrete store holding that session. -/
def wStore : SessionManager :=
  { sessions := [("sess-1", wSession)], ttl := 7200000 }

/-- A concrete partial report for witnesses. -/
def wReport (cid sid : String) : PartialReport :=
  { categoryId := cid, signalId := sid, title := "T", insights := ["i"],
    narrative := "n", emoji := "e", confidence := 7/10 }

/-- Witness for C1: two concurrent task writes in a concrete order both
survive in the stored map. -/
theorem c1_no_lost_updates_witness :
    ∃ sq,
      ([(2000, "game_context.home_vs_away",
          wReport "game_context" "home_vs_away"),
        (2001, "team_context.recent_form_results",
          wReport "team_context" "recent_form_results")].foldl
        (fun acc w =>
          (acc.updateSession w.1 "sess-1" (partialReportUpdate w.2.1 w.2.2)).2)
        wStore).sessions.lookup "sess-1" = some sq
      ∧ (∀ w ∈ [(2000, "game_context.home_vs_away",
            wReport "game_context" "home_vs_away"),
          (2001, "team_context.recent_form_results",
            wReport "team_context" "recent_form_results")],
          sq.partialReports.lookup w.2.1 = some w.2.2)
      ∧ sq.partialReports.length = wSession.partialReports.length + 2
      ∧ (∀ k, (wSession.partialReports.lookup k).isSome →
          sq.partialReports.lookup k = wSession.partialReports.lookup k) :=
  c1_no_lost_updates wStore "sess-1" wSession _
    (by decide) (by decide) (by decide) (by decide)

/-! ## Request throttle (src/lib/orchestrator/generator.ts, class
RequestThrottle)

The throttle keeps one mutable lastRequestTime. A call reads the clock,
compares against lastRequestTime, sleeps the missing delay if needed,
and only then writes the new lastRequestTime. The sleep is a suspension
point, so a call is modelled as up to two atomic steps: the start step
(read and either finish immediately or schedule a wake time) and the
wake step (finish and write lastRequestTime). -/

/-- Math.ceil(60000 / requestsPerMinute) from the constructor, as exact
Nat ceiling division. -/
def minDelayMs (requestsPerMinute : Nat) : Nat :=
  (60000 + requestsPerMinute - 1) / requestsPerMinute

/-- The constructor value coincides with the mathematical ceiling of
60000 / requestsPerMinute. -/
theorem minDelayMs_eq_ceil (rpm : Nat) (h : 0 < rpm) :
    minDelayMs rpm = ⌈(60000 : ℚ) / rpm⌉₊ := by
  have hq : (0 : ℚ) < (rpm : ℚ) := by exact_mod_cast h
  have hdm := Nat.div_add_mod (60000 + rpm - 1) rpm
  have hmod : (60000 + rpm - 1) % rpm < rpm := Nat.mod_lt _ h
  set q := (60000 + rpm - 1) / rpm with hqdef
  set r := (60000 + rpm - 1) % rpm with hrdef
  have h1 : 60000 ≤ rpm * q := by omega
  have hq1 : 1 ≤ q := by
    rcases Nat.eq_zero_or_pos q with h0 | h1p
    · rw [h0] at h1
      omega
    · exact h1p
  have hmul : rpm * (q - 1) + rpm = rpm * q := by
    have hq2 : q - 1 + 1 = q := Nat.succ_pred_eq_of_pos hq1
    calc rpm * (q - 1) + rpm = rpm * (q - 1 + 1) := by rw [Nat.mul_succ]
      _ = rpm * q := by rw [hq2]
  have h2 : rpm * (q - 1) < 60000 := by omega
  have hne : minDelayMs rpm ≠ 0 := by
    unfold minDelayMs
    omega
  have hmq : minDelayMs rpm = q := rfl
  rw [eq_comm, Nat.ceil_eq_iff hne, hmq]
  constructor
  · rw [lt_div_iff₀ hq]
    have h2q : ((rpm * (q - 1) : Nat) : ℚ) < 60000 := by exact_mod_cast h2
    push_cast at h2q
    rw [mul_comm]
    exact h2q
  · rw [div_le_iff₀ hq]
    have h1q : ((60000 : Nat) : ℚ) ≤ ((rpm * q : Nat) : ℚ) := by exact_mod_cast h1
    push_cast at h1q
    rw [mul_comm]
    exact h1q

/-- Phase of one caller of RequestThrottle.throttle: not yet started,
suspended in setTimeout until a wake time, or returned at a completion
time. -/
inductive CallPhase
  | idle
  | waiting (wake : Nat)
  | done (t : Nat)
deriving DecidableEq, Repr

/-- The throttle plus the phases of a set of callers. clock is the time
of the last executed step; steps happen at non-decreasing times. -/
structure ThrottleSys where
  lastRequestTime : Nat
  clock : Nat
  phases : List CallPhase
deriving DecidableEq, Repr

/-- One atomic step of caller i at time t. An idle caller whose elapsed
time since lastRequestTime is at least minDelay completes immediately
and records t; otherwise it schedules wake = t + (minDelay - elapsed)
and suspends, leaving lastRequestTime untouched until it wakes - this
is the literal control flow of RequestThrottle.throttle. A waiting
caller may fire at any time at or after its wake time (setTimeout fires
no earlier than requested). -/
def throttleStep (minDelay : Nat) (sys : ThrottleSys) (i t : Nat) :
    Option ThrottleSys :=
  if t < sys.clock then none
  else
    match sys.phases[i]? with
    | some CallPhase.idle =>
      if t - sys.lastRequestTime < minDelay then
        some { sys with
                 clock := t,
                 phases := sys.phases.set i
                   (CallPhase.waiting
                     (t + (minDelay - (t - sys.lastRequestTime)))) }
      else
        some { lastRequestTime := t, clock := t,
               phases := sys.phases.set i (CallPhase.done t) }
    | some (CallPhase.waiting w) =>
      if w ≤ t then
        some { lastRequestTime := t, clock := t,
               phases := sys.phases.set i (CallPhase.done t) }
      else none
    | _ => none

/-- Run a schedule of (caller, time) steps. -/
def runThrottle (minDelay : Nat) :
    ThrottleSys → List (Nat × Nat) → Option ThrottleSys
  | sys, [] => some sys
  | sys, e :: es =>
    match throttleStep minDelay sys e.1 e.2 with
    | some sys1 => runThrottle minDelay sys1 es
    | none => none

/-- Initial state: lastRequestTime = 0 as in the constructor, three
callers. -/
def raceInit : ThrottleSys :=
  { lastRequestTime := 0, clock := 0,
    phases := [CallPhase.idle, CallPhase.idle, CallPhase.idle] }

/-- The racing schedule: caller 0 acquires alone at t=10000; callers 1
and 2 both start while lastRequestTime is still 10000, both compute the
same wake time 17500, and complete back to back. -/
def raceTrace : List (Nat × Nat) :=
  [(0, 10000), (1, 10001), (2, 10002), (1, 17500), (2, 17501)]

/-- C2 counterexample: with requestsPerMinute = 8 (minDelay 7500 ms),
two concurrent callers racing through RequestThrottle.throttle complete
1 ms apart. The second caller of the race computes its wait from the
lastRequestTime it read at its start - not from whichever call most
recently completed - because lastRequestTime is only written after the
sleep. This refutes the claim that concurrent acquisitions are always
separated by at least ceil(60000/N) ms. -/
theorem c2_counterexample :
    runThrottle (minDelayMs 8) raceInit raceTrace =
      some { lastRequestTime := 17501, clock := 17501,
             phases := [CallPhase.done 10000, CallPhase.done 17500,
               CallPhase.done 17501] }
    ∧ 17501 - 17500 < minDelayMs 8 := by
  constructor
  · rfl
  · decide

theorem getElem?_set_of_some {α : Type} (l : List α) (i : Nat) (a b : α)
    (h : l[i]? = some b) : (l.set i a)[i]? = some a := by
  induction l generalizing i with
  | nil => simp at h
  | cons x xs ih =>
    cases i with
    | zero => simp
    | succ n => simpa using ih n (by simpa using h)

/-- C2 amended: each acquisition completes at least
minDelay = ceil(60000/requestsPerMinute) ms after the lastRequestTime it
observed when it started. A caller that starts from idle either finishes
at a time c with observed lastRequestTime + minDelay ≤ c, or schedules a
wake time w with observed lastRequestTime + minDelay ≤ w, and a waiting
caller finishes no earlier than its wake time. Hence two acquisitions
serialized one after the other (the second starts after the first
completed, so it observes the first completion as lastRequestTime) are
spaced by at least ceil(60000/N) ms; two overlapping acquisitions are
only spaced relative to the older timestamp they both observed, and can
complete arbitrarily close together (see the counterexample). -/
theorem c2_amended_spacing (rpm : Nat) (sys : ThrottleSys) (i t : Nat)
    (sysq : ThrottleSys)
    (hrpm : 0 < rpm)
    (hL : sys.lastRequestTime ≤ t)
    (hstep : throttleStep (minDelayMs rpm) sys i t = some sysq) :
    minDelayMs rpm = ⌈(60000 : ℚ) / rpm⌉₊
    ∧ (sys.phases[i]? = some CallPhase.idle →
        (∀ c, sysq.phases[i]? = some (CallPhase.done c) →
          sys.lastRequestTime + minDelayMs rpm ≤ c) ∧
        (∀ w, sysq.phases[i]? = some (CallPhase.waiting w) →
          sys.lastRequestTime + minDelayMs rpm ≤ w))
    ∧ (∀ w, sys.phases[i]? = some (CallPhase.waiting w) →
        ∀ c, sysq.phases[i]? = some (CallPhase.done c) → w ≤ c) := by
  refine ⟨minDelayMs_eq_ceil rpm hrpm, ?_, ?_⟩
  · intro hidle
    simp only [throttleStep, hidle] at hstep
    split at hstep
    · exact absurd hstep (by simp)
    · split at hstep
      · rename_i hclk hwait
        injection hstep with hq
        subst hq
        constructor
        · intro c hc
          simp only at hc
          rw [getElem?_set_of_some sys.phases i _ CallPhase.idle hidle] at hc
          exact absurd hc (by simp)
        · intro w hw
          simp only at hw
          rw [getElem?_set_of_some sys.phases i _ CallPhase.idle hidle] at hw
          injection hw with hw
          cases hw
          omega
      · rename_i hclk hwait
        injection hstep with hq
        subst hq
        constructor
        · intro c hc
          simp only at hc
          rw [getElem?_set_of_some sys.phases i _ CallPhase.idle hidle] at hc
          injection hc with hc
          cases hc
          omega
        · intro w hw
          simp only at hw
          rw [getElem?_set_of_some sys.phases i _ CallPhase.idle hidle] at hw
          exact absurd hw (by simp)
  · intro w hw c hc
    simp only [throttleStep, hw] at hstep
    split at hstep
    · exact absurd hstep (by simp)
    · split at hstep
      · rename_i hclk hwt
        injection hstep with hq
        subst hq
        simp only at hc
        rw [getElem?_set_of_some sys.phases i _ (CallPhase.waiting w) hw] at hc
        injection hc with hc
        cases hc
        exact hwt
      · exact absurd hstep (by simp)

/-- A one-caller throttle state for the witness: an earlier acquisition
completed at time 5000. -/
def wThrottleSys : ThrottleSys :=
  { lastRequestTime := 5000, clock := 5000, phases := [CallPhase.idle] }

/-- The state after the witness step: the caller started at 6000 and
scheduled wake time 12500 = 5000 + 7500. -/
def wThrottleSysq : ThrottleSys :=
  { lastRequestTime := 5000, clock := 6000,
    phases := [CallPhase.waiting 12500] }

/-- Witness for the amended C2 at requestsPerMinute = 8. -/
theorem c2_amended_spacing_witness :
    minDelayMs 8 = ⌈(60000 : ℚ) / (8 : Nat)⌉₊
    ∧ (wThrottleSys.phases[0]? = some CallPhase.idle →
        (∀ c, wThrottleSysq.phases[0]? = some (CallPhase.done c) →
          wThrottleSys.lastRequestTime + minDelayMs 8 ≤ c) ∧
        (∀ w, wThrottleSysq.phases[0]? = some (CallPhase.waiting w) →
          wThrottleSys.lastRequestTime + minDelayMs 8 ≤ w))
    ∧ (∀ w, wThrottleSys.phases[0]? = some (CallPhase.waiting w) →
        ∀ c, wThrottleSysq.phases[0]? = some (CallPhase.done c) → w ≤ c) :=
  c2_amended_spacing 8 wThrottleSys 0 6000 wThrottleSysq (by decide)
    (by decide) (by decide)

/-! ## TTL response cache (src/lib/api-football/cache.ts) -/

theorem lookup_recordDelete_self {α : Type} (m : List (String × α))
    (k : String) : (recordDelete m k).lookup k = none := by
  induction m with
  | nil => rfl
  | cons p rest ih =>
    obtain ⟨a, b⟩ := p
    simp only [recordDelete] at ih ⊢
    by_cases h : a = k
    · simp [List.filter, h, ih]
    · have hb : (a != k) = true := by simp [h]
      have h2 : (k == a) = false := by simpa using Ne.symm h
      simp only [List.filter, hb, List.lookup, h2]
      simpa using ih

/-- Cache entry: immutable data plus absolute expiry time. -/
structure CacheEntry where
  data : String
  expiresAt : Nat
deriving DecidableEq, Repr

/-- ENDPOINT_TTL_CONFIG: per-endpoint default TTL in milliseconds. -/
def ENDPOINT_TTL_CONFIG : List (String × Nat) :=
  [("/fixtures", 2 * 60 * 1000),
   ("/fixtures/statistics", 5 * 60 * 1000),
   ("/fixtures/events", 2 * 60 * 1000),
   ("/fixtures/lineups", 10 * 60 * 1000),
   ("/injuries", 60 * 60 * 1000),
   ("/standings", 30 * 60 * 1000),
   ("/fixtures/headtohead", 24 * 60 * 60 * 1000),
   ("/leagues", 7 * 24 * 60 * 60 * 1000),
   ("/teams", 7 * 24 * 60 * 60 * 1000),
   ("/timezone", 30 * 24 * 60 * 60 * 1000)]

/-- The global fallback TTL (60 minutes). -/
def defaultTTL : Nat := 60 * 60 * 1000

/-- Lexicographic insertion of a string into a sorted list; together
with sortStrings this models Object.keys(params).sort(). -/
def insertSorted (x : String) : List String → List String
  | [] => [x]
  | y :: ys => if x ≤ y then x :: y :: ys else y :: insertSorted x ys

def sortStrings : List String → List String
  | [] => []
  | x :: xs => insertSorted x (sortStrings xs)

/-- generateKey: endpoint plus parameters serialized in sorted-key
order. -/
def generateKey (endpoint : String) (params : List (String × String)) :
    String :=
  let sortedKeys := sortStrings (params.map Prod.fst)
  let parts := sortedKeys.map (fun k => k ++ "=" ++ ((params.lookup k).getD ""))
  endpoint ++ "?" ++ String.intercalate "&" parts

/-- The cache map state. -/
structure APIFootballCache where
  cache : List (String × CacheEntry)
deriving DecidableEq, Repr

/-- APIFootballCache.get: an entry past its expiry reads as absent and
is deleted lazily (the comparison is Date.now() > expiresAt). -/
def cacheGet (c : APIFootballCache) (now : Nat) (endpoint : String)
    (params : List (String × String)) : Option String × APIFootballCache :=
  match c.cache.lookup (generateKey endpoint params) with
  | none => (none, c)
  | some entry =>
    if entry.expiresAt < now then
      (none, { cache := recordDelete c.cache (generateKey endpoint params) })
    else (some entry.data, c)

/-- Effective TTL: custom TTL, else endpoint-specific TTL, else the
default, with the JS zero-is-falsy semantics of the chain
ttl || ENDPOINT_TTL_CONFIG[endpoint] || defaultTTL. -/
def effectiveTTL (ttl : Option Nat) (endpoint : String) : Nat :=
  let endpointTTL := match ENDPOINT_TTL_CONFIG.lookup endpoint with
    | some v => if v == 0 then defaultTTL else v
    | none => defaultTTL
  match ttl with
  | some v => if v == 0 then endpointTTL else v
  | none => endpointTTL

/-- APIFootballCache.set. -/
def cacheSet (c : APIFootballCache) (now : Nat) (endpoint : String)
    (params : List (String × String)) (data : String) (ttl : Option Nat) :
    APIFootballCache :=
  { cache := recordSet c.cache (generateKey endpoint params)
      { data := data, expiresAt := now + effectiveTTL ttl endpoint } }

/-- C7: for a set with no explicit TTL on an endpoint present in the
TTL table with value T, a get with the same endpoint and parameters at
the set time returns the stored value; a get after the TTL has elapsed
returns absent and evicts the entry from the map. -/
theorem c7_cache_ttl (c : APIFootballCache) (endpoint : String)
    (params : List (String × String)) (data : String) (T t0 t1 : Nat)
    (hT : ENDPOINT_TTL_CONFIG.lookup endpoint = some T)
    (hT0 : T ≠ 0)
    (h1 : t0 + T < t1) :
    (cacheGet (cacheSet c t0 endpoint params data none) t0 endpoint
      params).1 = some data
    ∧ (cacheGet (cacheSet c t0 endpoint params data none) t1 endpoint
        params).1 = none
    ∧ ((cacheGet (cacheSet c t0 endpoint params data none) t1 endpoint
        params).2.cache.lookup (generateKey endpoint params)) = none := by
  have heff : effectiveTTL none endpoint = T := by
    unfold effectiveTTL
    rw [hT]
    simp [hT0]
  have hlook :
      (cacheSet c t0 endpoint params data none).cache.lookup
        (generateKey endpoint params) =
        some { data := data, expiresAt := t0 + T } := by
    unfold cacheSet
    rw [heff]
    exact lookup_recordSet_self _ _ _
  refine ⟨?_, ?_, ?_⟩
  · unfold cacheGet
    rw [hlook]
    simp only
    have : ¬ t0 + T < t0 := by omega
    simp [this]
  · unfold cacheGet
    rw [hlook]
    simp [h1]
  · unfold cacheGet
    rw [hlook]
    simp only [h1, if_pos]
    exact lookup_recordDelete_self _ _

/-- Witness for C7 on the /fixtures endpoint (TTL 120000 ms). -/
theorem c7_cache_ttl_witness :
    (cacheGet (cacheSet ⟨[]⟩ 1000 "/fixtures" [("id", "12345")] "payload"
      none) 1000 "/fixtures" [("id", "12345")]).1 = some "payload"
    ∧ (cacheGet (cacheSet ⟨[]⟩ 1000 "/fixtures" [("id", "12345")] "payload"
        none) 200000 "/fixtures" [("id", "12345")]).1 = none
    ∧ ((cacheGet (cacheSet ⟨[]⟩ 1000 "/fixtures" [("id", "12345")] "payload"
        none) 200000 "/fixtures" [("id", "12345")]).2.cache.lookup
        (generateKey "/fixtures" [("id", "12345")])) = none :=
  c7_cache_ttl ⟨[]⟩ "/fixtures" [("id", "12345")] "payload" 120000 1000
    200000 (by decide) (by decide) (by decide)

/-! ## External data client, 429 handling
(src/lib/api-football/client.ts, APIFootballClient.request) -/

/-- Rate limit metadata captured from response headers. -/
structure RateLimitInfo where
  requestsRemaining : Option Nat := none
  requestsLimit : Option Nat := none
deriving DecidableEq, Repr

/-- One HTTP 429 response: the optional retry-after header (seconds) and
the rate-limit headers. -/
structure Resp429 where
  retryAfter : Option Nat := none
  rateLimit : RateLimitInfo := {}
deriving DecidableEq, Repr

/-- APIFootballError: message, status code, endpoint. -/
structure APIFootballErrorM where
  message : String
  statusCode : Option Nat := none
  endpoint : Option String := none
deriving DecidableEq, Repr

/-- maxRetries = 3 in the client. -/
def clientMaxRetries : Nat := 3

/-- retryDelay = 1000 ms in the client. -/
def clientRetryDelay : Nat := 1000

/-- The exhaustion message, with the JS zero-is-falsy rendering of
requestsRemaining || 0 and requestsLimit || unknown. -/
def rateLimitMessage (rl : RateLimitInfo) : String :=
  "Rate limit exceeded. Requests remaining: "
    ++ toString (rl.requestsRemaining.getD 0) ++ "/"
    ++ (match rl.requestsLimit with
        | some l => if l == 0 then "unknown" else toString l
        | none => "unknown")

/-- Delay before the next attempt: the server-provided retry-after
(seconds, times 1000) when the header is present, else
retryDelay * 2 ^ (attempt - 1). -/
def backoffDelay (retryDelay attempt : Nat) (retryAfter : Option Nat) :
    Nat :=
  match retryAfter with
  | some ra => ra * 1000
  | none => retryDelay * 2 ^ (attempt - 1)

/-- The 429 branch of APIFootballClient.request when every attempt gets
a 429: while attempt < maxRetries, wait the backoff delay and recurse
with attempt + 1; at the attempt limit, throw the distinguished
rate-limit error with status 429 and the remaining-quota message.
Returns the list of delays waited and the final error. -/
def request429 (maxRetries retryDelay : Nat) (resp : Nat → Resp429)
    (endpoint : String) (attempt : Nat) : List Nat × APIFootballErrorM :=
  if attempt < maxRetries then
    let d := backoffDelay retryDelay attempt (resp attempt).retryAfter
    let r := request429 maxRetries retryDelay resp endpoint (attempt + 1)
    (d :: r.1, r.2)
  else
    ([], { message := rateLimitMessage (resp attempt).rateLimit,
           statusCode := some 429, endpoint := some endpoint })
termination_by maxRetries - attempt

/-- C8: starting at attempt 1 with every response an HTTP 429, the
client waits exactly the server-provided delay when present and
retryDelay * 2 ^ (attempt - 1) otherwise, for attempts 1 and 2 (the
attempt limit is 3, so two waits happen); the no-header delay is capped
by retryDelay * 2 ^ (maxRetries - 2); on exhaustion the thrown error
carries status code 429, the endpoint, and the remaining-quota message
built from the last response. -/
theorem c8_rate_limit_retry (resp : Nat → Resp429) (endpoint : String)
    (k ra : Nat) (hk1 : 1 ≤ k) (hk2 : k < clientMaxRetries) :
    (request429 clientMaxRetries clientRetryDelay resp endpoint 1).1 =
      [backoffDelay clientRetryDelay 1 (resp 1).retryAfter,
       backoffDelay clientRetryDelay 2 (resp 2).retryAfter]
    ∧ backoffDelay clientRetryDelay k none =
        clientRetryDelay * 2 ^ (k - 1)
    ∧ backoffDelay clientRetryDelay k none ≤
        clientRetryDelay * 2 ^ (clientMaxRetries - 2)
    ∧ backoffDelay clientRetryDelay k (some ra) = ra * 1000
    ∧ (request429 clientMaxRetries clientRetryDelay resp endpoint 1).2 =
        { message := rateLimitMessage (resp clientMaxRetries).rateLimit,
          statusCode := some 429, endpoint := some endpoint } := by
  have h3 : request429 clientMaxRetries clientRetryDelay resp endpoint 3 =
      ([], { message := rateLimitMessage (resp 3).rateLimit,
             statusCode := some 429, endpoint := some endpoint }) := by
    unfold request429
    simp [clientMaxRetries]
  have h2 : request429 clientMaxRetries clientRetryDelay resp endpoint 2 =
      (backoffDelay clientRetryDelay 2 (resp 2).retryAfter ::
        (request429 clientMaxRetries clientRetryDelay resp endpoint 3).1,
       (request429 clientMaxRetries clientRetryDelay resp endpoint 3).2) := by
    conv_lhs => rw [request429]
    simp [clientMaxRetries]
  have h1 : request429 clientMaxRetries clientRetryDelay resp endpoint 1 =
      (backoffDelay clientRetryDelay 1 (resp 1).retryAfter ::
        (request429 clientMaxRetries clientRetryDelay resp endpoint 2).1,
       (request429 clientMaxRetries clientRetryDelay resp endpoint 2).2) := by
    conv_lhs => rw [request429]
    simp [clientMaxRetries]
  refine ⟨?_, rfl, ?_, rfl, ?_⟩
  · rw [h1, h2, h3]
  · have hk : k - 1 ≤ clientMaxRetries - 2 := by
      simp only [clientMaxRetries] at hk2 ⊢
      omega
    simp only [backoffDelay]
    exact Nat.mul_le_mul_left _ (Nat.pow_le_pow_right (by norm_num) hk)
  · rw [h1, h2, h3]
    simp [clientMaxRetries]

/-- A concrete 429 response stream for the witness: attempt 1 has no
retry-after header, attempt 2 advertises retry-after 30 s, the final
response reports 0 of 100 requests remaining. -/
def wResp429 : Nat → Resp429
  | 2 => { retryAfter := some 30 }
  | 3 => { rateLimit := { requestsRemaining := some 0,
                          requestsLimit := some 100 } }
  | _ => {}

/-- Witness for C8 at the concrete response stream. -/
theorem c8_rate_limit_retry_witness :
    (request429 clientMaxRetries clientRetryDelay wResp429 "/fixtures" 1).1 =
      [backoffDelay clientRetryDelay 1 (wResp429 1).retryAfter,
       backoffDelay clientRetryDelay 2 (wResp429 2).retryAfter]
    ∧ backoffDelay clientRetryDelay 2 none =
        clientRetryDelay * 2 ^ (2 - 1)
    ∧ backoffDelay clientRetryDelay 2 none ≤
        clientRetryDelay * 2 ^ (clientMaxRetries - 2)
    ∧ backoffDelay clientRetryDelay 2 (some 30) = 30 * 1000
    ∧ (request429 clientMaxRetries clientRetryDelay wResp429 "/fixtures" 1).2 =
        { message := rateLimitMessage (wResp429 clientMaxRetries).rateLimit,
          statusCode := some 429, endpoint := some "/fixtures" } :=
  c8_rate_limit_retry wResp429 "/fixtures" 2 30 (by decide) (by decide)

/-! ## Progress tracker (src/lib/orchestrator/progress-tracker.ts,
class ProgressTracker)

Stage bands: data collection emits 10; signal generation emits
20 + floor(completedSignals / totalSignals * 50); category merge emits
70 + floor(completedCategories / totalCategories * 20); final synthesis
emits 90 + p for p = 5, 7, 9; the orchestrator emits 100 on success. -/

/-- One emission of the tracker over a run. -/
inductive TrackEvent
  | data
  | sigStart
  | sigComplete
  | catStart
  | catComplete
  | finalSynth (p : Nat)
  | completed
deriving DecidableEq, Repr

/-- Tracker counters. -/
structure TrackerState where
  totalSignals : Nat
  totalCategories : Nat
  completedSignals : Nat := 0
  completedCategories : Nat := 0
deriving DecidableEq, Repr

/-- The signal-band percentage. -/
def signalProgress (st : TrackerState) : Nat :=
  20 + st.completedSignals * 50 / st.totalSignals

/-- The category-band percentage. -/
def categoryProgress (st : TrackerState) : Nat :=
  70 + st.completedCategories * 20 / st.totalCategories

/-- One tracker emission: the state afterwards and the emitted
progress value. emitSignalComplete and emitCategoryComplete increment
their counter before computing the value. -/
def trackStep (st : TrackerState) : TrackEvent → TrackerState × Nat
  | TrackEvent.data => (st, 10)
  | TrackEvent.sigStart => (st, signalProgress st)
  | TrackEvent.sigComplete =>
    let st1 := { st with completedSignals := st.completedSignals + 1 }
    (st1, signalProgress st1)
  | TrackEvent.catStart => (st, categoryProgress st)
  | TrackEvent.catComplete =>
    let st1 := { st with completedCategories := st.completedCategories + 1 }
    (st1, categoryProgress st1)
  | TrackEvent.finalSynth p => (st, 90 + p)
  | TrackEvent.completed => (st, 100)

/-- The emitted progress values of a run. -/
def runTracker (st : TrackerState) : List TrackEvent → List Nat
  | [] => []
  | e :: es => (trackStep st e).2 :: runTracker (trackStep st e).1 es

/-- The tracker state after a run. -/
def trackFold (st : TrackerState) (l : List TrackEvent) : TrackerState :=
  l.foldl (fun s e => (trackStep s e).1) st

theorem runTracker_append (st : TrackerState) (l1 l2 : List TrackEvent) :
    runTracker st (l1 ++ l2) =
      runTracker st l1 ++ runTracker (trackFold st l1) l2 := by
  induction l1 generalizing st with
  | nil => simp [runTracker, trackFold]
  | cons e es ih => simp [runTracker, trackFold, List.foldl_cons, ih]

theorem mem_of_headq {α : Type} (l : List α) (x : α)
    (h : l.head? = some x) : x ∈ l := by
  cases l with
  | nil => simp at h
  | cons a t =>
    simp only [List.head?] at h
    injection h with h
    exact h ▸ List.mem_cons_self a t

theorem mem_of_getLastq {α : Type} (l : List α) (x : α)
    (h : l.getLast? = some x) : x ∈ l := by
  induction l with
  | nil => simp at h
  | cons a t ih =>
    cases t with
    | nil =>
      simp only [List.getLast?_singleton] at h
      injection h with h
      simp [h]
    | cons b t2 =>
      rw [List.getLast?_cons_cons] at h
      exact List.mem_cons_of_mem a (ih h)

theorem chain_le_of_all_eq (l : List Nat) (x : Nat) (h : ∀ v ∈ l, v = x) :
    List.Chain' (· ≤ ·) l := by
  induction l with
  | nil => exact List.chain'_nil
  | cons a t ih =>
    rw [List.chain'_cons']
    refine ⟨?_, ih (fun v hv => h v (List.mem_cons_of_mem a hv))⟩
    intro y hy
    have hy2 := h y (List.mem_cons_of_mem a (mem_of_headq t y
      (Option.mem_def.mp hy)))
    have ha := h a (List.mem_cons_self a t)
    omega

theorem runTracker_data (l : List TrackEvent) (st : TrackerState)
    (h : ∀ e ∈ l, e = TrackEvent.data) :
    runTracker st l = l.map (fun _ => 10) ∧ trackFold st l = st := by
  induction l generalizing st with
  | nil => exact ⟨rfl, rfl⟩
  | cons e es ih =>
    have he := h e (List.mem_cons_self e es)
    subst he
    have := ih st (fun e2 h2 => h e2 (List.mem_cons_of_mem _ h2))
    simp [runTracker, trackStep, trackFold] at this ⊢
    exact this

theorem signalProgress_mono (st : TrackerState) (c1 c2 : Nat)
    (h : c1 ≤ c2) :
    signalProgress { st with completedSignals := c1 } ≤
      signalProgress { st with completedSignals := c2 } := by
  unfold signalProgress
  dsimp only
  have := Nat.div_le_div_right (c := st.totalSignals)
    (Nat.mul_le_mul_right 50 h)
  omega

theorem signalProgress_le (st : TrackerState)
    (hT : 0 < st.totalSignals)
    (h : st.completedSignals ≤ st.totalSignals) :
    signalProgress st ≤ 70 := by
  unfold signalProgress
  have h1 : st.completedSignals * 50 ≤ st.totalSignals * 50 :=
    Nat.mul_le_mul_right 50 h
  have h2 : st.completedSignals * 50 / st.totalSignals ≤
      st.totalSignals * 50 / st.totalSignals :=
    Nat.div_le_div_right h1
  have h3 : st.totalSignals * 50 / st.totalSignals = 50 := by
    rw [Nat.mul_div_cancel_left 50 hT]
  omega

theorem categoryProgress_mono (st : TrackerState) (c1 c2 : Nat)
    (h : c1 ≤ c2) :
    categoryProgress { st with completedCategories := c1 } ≤
      categoryProgress { st with completedCategories := c2 } := by
  unfold categoryProgress
  dsimp only
  have := Nat.div_le_div_right (c := st.totalCategories)
    (Nat.mul_le_mul_right 20 h)
  omega

theorem categoryProgress_le (st : TrackerState)
    (hC : 0 < st.totalCategories)
    (h : st.completedCategories ≤ st.totalCategories) :
    categoryProgress st ≤ 90 := by
  unfold categoryProgress
  have h1 : st.completedCategories * 20 ≤ st.totalCategories * 20 :=
    Nat.mul_le_mul_right 20 h
  have h2 : st.completedCategories * 20 / st.totalCategories ≤
      st.totalCategories * 20 / st.totalCategories :=
    Nat.div_le_div_right h1
  have h3 : st.totalCategories * 20 / st.totalCategories = 20 := by
    rw [Nat.mul_div_cancel_left 20 hC]
  omega

theorem runTracker_sig (l : List TrackEvent) (st : TrackerState)
    (hall : ∀ e ∈ l, e = TrackEvent.sigStart ∨ e = TrackEvent.sigComplete)
    (hcnt : st.completedSignals + l.count TrackEvent.sigComplete ≤
      st.totalSignals)
    (hT : 0 < st.totalSignals) :
    List.Chain' (· ≤ ·) (runTracker st l)
    ∧ (∀ v ∈ runTracker st l, 20 ≤ v ∧ v ≤ 70)
    ∧ (∀ v ∈ (runTracker st l).head?, signalProgress st ≤ v)
    ∧ (trackFold st l).totalSignals = st.totalSignals
    ∧ (trackFold st l).totalCategories = st.totalCategories
    ∧ (trackFold st l).completedCategories = st.completedCategories
    ∧ (trackFold st l).completedSignals =
        st.completedSignals + l.count TrackEvent.sigComplete := by
  induction l generalizing st with
  | nil =>
    refine ⟨List.chain'_nil, by simp [runTracker], by simp [runTracker],
      rfl, rfl, rfl, ?_⟩
    simp [trackFold]
  | cons e es ih =>
    rcases hall e (List.mem_cons_self e es) with he | he
    · subst he
      have hcnt2 : st.completedSignals + es.count TrackEvent.sigComplete ≤
          st.totalSignals := by
        rw [List.count_cons] at hcnt
        simp at hcnt
        omega
      obtain ⟨ihc, ihb, ihh, ihf1, ihf2, ihf3, ihf4⟩ :=
        ih st (fun e2 h2 => hall e2 (List.mem_cons_of_mem _ h2)) hcnt2 hT
      have hste : trackStep st TrackEvent.sigStart = (st, signalProgress st) :=
        rfl
      have hbound : signalProgress st ≤ 70 :=
        signalProgress_le st hT (by omega)
      refine ⟨?_, ?_, ?_, ?_, ?_, ?_, ?_⟩
      · simp only [runTracker, hste]
        rw [List.chain'_cons']
        exact ⟨fun y hy => ihh y hy, ihc⟩
      · intro v hv
        simp only [runTracker, hste] at hv
        rcases List.mem_cons.mp hv with hv | hv
        · subst hv
          exact ⟨Nat.le_add_right 20 _, hbound⟩
        · exact ihb v hv
      · intro v hv
        simp only [runTracker, hste, List.head?] at hv
        have h2 := Option.mem_def.mp hv
        injection h2 with h2
        exact le_of_eq h2
      · simpa [trackFold, hste] using ihf1
      · simpa [trackFold, hste] using ihf2
      · simpa [trackFold, hste] using ihf3
      · simp only [trackFold, List.foldl_cons, hste] at ihf4 ⊢
        rw [ihf4]
        simp
    · subst he
      set st1 : TrackerState :=
        { st with completedSignals := st.completedSignals + 1 } with hst1
      have hste : trackStep st TrackEvent.sigComplete =
          (st1, signalProgress st1) := rfl
      have hcnt2 : st1.completedSignals + es.count TrackEvent.sigComplete ≤
          st1.totalSignals := by
        simp only [hst1]
        rw [List.count_cons] at hcnt
        simp at hcnt
        omega
      have hT1 : 0 < st1.totalSignals := hT
      obtain ⟨ihc, ihb, ihh, ihf1, ihf2, ihf3, ihf4⟩ :=
        ih st1 (fun e2 h2 => hall e2 (List.mem_cons_of_mem _ h2)) hcnt2 hT1
      have hmono : signalProgress st ≤ signalProgress st1 := by
        have := signalProgress_mono st st.completedSignals
          (st.completedSignals + 1) (by omega)
        simpa [hst1] using this
      have hbound1 : signalProgress st1 ≤ 70 :=
        signalProgress_le st1 hT1 (by omega)
      refine ⟨?_, ?_, ?_, ?_, ?_, ?_, ?_⟩
      · simp only [runTracker, hste]
        rw [List.chain'_cons']
        exact ⟨fun y hy => ihh y hy, ihc⟩
      · intro v hv
        simp only [runTracker, hste] at hv
        rcases List.mem_cons.mp hv with hv | hv
        · subst hv
          exact ⟨Nat.le_add_right 20 _, hbound1⟩
        · exact ihb v hv
      · intro v hv
        simp only [runTracker, hste, List.head?] at hv
        have h2 := Option.mem_def.mp hv
        injection h2 with h2
        exact le_trans hmono (le_of_eq h2)
      · simpa [trackFold, hste] using ihf1
      · simpa [trackFold, hste] using ihf2
      · simpa [trackFold, hste] using ihf3
      · simp only [trackFold, List.foldl_cons, hste] at ihf4 ⊢
        rw [ihf4]
        simp only [hst1, List.count_cons]
        simp
        omega

theorem runTracker_cat (l : List TrackEvent) (st : TrackerState)
    (hall : ∀ e ∈ l, e = TrackEvent.catStart ∨ e = TrackEvent.catComplete)
    (hcnt : st.completedCategories + l.count TrackEvent.catComplete ≤
      st.totalCategories)
    (hC : 0 < st.totalCategories) :
    List.Chain' (· ≤ ·) (runTracker st l)
    ∧ (∀ v ∈ runTracker st l, 70 ≤ v ∧ v ≤ 90)
    ∧ (∀ v ∈ (runTracker st l).head?, categoryProgress st ≤ v) := by
  induction l generalizing st with
  | nil => exact ⟨List.chain'_nil, by simp [runTracker], by simp [runTracker]⟩
  | cons e es ih =>
    rcases hall e (List.mem_cons_self e es) with he | he
    · subst he
      have hcnt2 : st.completedCategories + es.count TrackEvent.catComplete ≤
          st.totalCategories := by
        rw [List.count_cons] at hcnt
        simp at hcnt
        omega
      obtain ⟨ihc, ihb, ihh⟩ :=
        ih st (fun e2 h2 => hall e2 (List.mem_cons_of_mem _ h2)) hcnt2 hC
      have hste : trackStep st TrackEvent.catStart =
          (st, categoryProgress st) := rfl
      have hbound : categoryProgress st ≤ 90 :=
        categoryProgress_le st hC (by omega)
      refine ⟨?_, ?_, ?_⟩
      · simp only [runTracker, hste]
        rw [List.chain'_cons']
        exact ⟨fun y hy => ihh y hy, ihc⟩
      · intro v hv
        simp only [runTracker, hste] at hv
        rcases List.mem_cons.mp hv with hv | hv
        · subst hv
          exact ⟨Nat.le_add_right 70 _, hbound⟩
        · exact ihb v hv
      · intro v hv
        simp only [runTracker, hste, List.head?] at hv
        have h2 := Option.mem_def.mp hv
        injection h2 with h2
        exact le_of_eq h2
    · subst he
      set st1 : TrackerState :=
        { st with completedCategories := st.completedCategories + 1 }
        with hst1
      have hste : trackStep st TrackEvent.catComplete =
          (st1, categoryProgress st1) := rfl
      have hcnt2 : st1.completedCategories + es.count TrackEvent.catComplete ≤
          st1.totalCategories := by
        simp only [hst1]
        rw [List.count_cons] at hcnt
        simp at hcnt
        omega
      have hC1 : 0 < st1.totalCategories := hC
      obtain ⟨ihc, ihb, ihh⟩ :=
        ih st1 (fun e2 h2 => hall e2 (List.mem_cons_of_mem _ h2)) hcnt2 hC1
      have hmono : categoryProgress st ≤ categoryProgress st1 := by
        have := categoryProgress_mono st st.completedCategories
          (st.completedCategories + 1) (by omega)
        simpa [hst1] using this
      have hbound1 : categoryProgress st1 ≤ 90 :=
        categoryProgress_le st1 hC1 (by omega)
      refine ⟨?_, ?_, ?_⟩
      · simp only [runTracker, hste]
        rw [List.chain'_cons']
        exact ⟨fun y hy => ihh y hy, ihc⟩
      · intro v hv
        simp only [runTracker, hste] at hv
        rcases List.mem_cons.mp hv with hv | hv
        · subst hv
          exact ⟨Nat.le_add_right 70 _, hbound1⟩
        · exact ihb v hv
      · intro v hv
        simp only [runTracker, hste, List.head?] at hv
        have h2 := Option.mem_def.mp hv
        injection h2 with h2
        exact le_trans hmono (le_of_eq h2)

/-- The final-synthesis emissions plus the 100 emitted by
ReportGenerator.generate on success: values 95, 97, 99, 100 for any
counter state. -/
theorem runTracker_finalTail (st : TrackerState) :
    runTracker st [TrackEvent.finalSynth 5, TrackEvent.finalSynth 7,
      TrackEvent.finalSynth 9, TrackEvent.completed] = [95, 97, 99, 100] :=
  rfl

/-- The emission sequences a full successful pipeline run can produce:
any number of data-collection emissions, then signal start/complete
emissions with at most totalSignals completions, then category
start/complete emissions with at most totalCategories completions, then
the three final-synthesis emissions and the terminal 100. -/
def ValidRun (T C : Nat) (tr : List TrackEvent) : Prop :=
  ∃ ds ss cs,
    tr = ds ++ ss ++ cs ++
      [TrackEvent.finalSynth 5, TrackEvent.finalSynth 7,
       TrackEvent.finalSynth 9, TrackEvent.completed]
    ∧ (∀ e ∈ ds, e = TrackEvent.data)
    ∧ (∀ e ∈ ss, e = TrackEvent.sigStart ∨ e = TrackEvent.sigComplete)
    ∧ ss.count TrackEvent.sigComplete ≤ T
    ∧ (∀ e ∈ cs, e = TrackEvent.catStart ∨ e = TrackEvent.catComplete)
    ∧ cs.count TrackEvent.catComplete ≤ C

/-- C3: over any full successful pipeline run, the sequence of progress
values delivered to the callback is non-decreasing, and the final
emission carries exactly 100. -/
theorem c3_progress_monotone (T C : Nat) (tr : List TrackEvent)
    (hT : 0 < T) (hC : 0 < C) (hv : ValidRun T C tr) :
    List.Chain' (· ≤ ·)
      (runTracker { totalSignals := T, totalCategories := C } tr)
    ∧ (runTracker { totalSignals := T, totalCategories := C } tr).getLast? =
        some 100 := by
  obtain ⟨ds, ss, cs, htr, hds, hss, hsc, hcs, hcc⟩ := hv
  subst htr
  set st0 : TrackerState := { totalSignals := T, totalCategories := C }
    with hst0
  obtain ⟨hdvals, hdfold⟩ := runTracker_data ds st0 hds
  have hsigT : st0.completedSignals + ss.count TrackEvent.sigComplete ≤
      st0.totalSignals := by
    simp [hst0]
    exact hsc
  obtain ⟨hchain_s, hb_s, hh_s, hf1, hf2, hf3, hf4⟩ :=
    runTracker_sig ss st0 hss hsigT (by simp [hst0]; omega)
  set st1 : TrackerState := trackFold st0 ss with hst1
  have hcatC : st1.completedCategories + cs.count TrackEvent.catComplete ≤
      st1.totalCategories := by
    rw [hf3, hf2]
    simp [hst0]
    exact hcc
  obtain ⟨hchain_c, hb_c, hh_c⟩ :=
    runTracker_cat cs st1 hcs hcatC (by rw [hf2]; simp [hst0]; omega)
  set st2 : TrackerState := trackFold st1 cs with hst2
  have hsplit :
      runTracker st0 (ds ++ ss ++ cs ++
        [TrackEvent.finalSynth 5, TrackEvent.finalSynth 7,
         TrackEvent.finalSynth 9, TrackEvent.completed]) =
      runTracker st0 ds ++ (runTracker st0 ss ++ (runTracker st1 cs ++
        [95, 97, 99, 100])) := by
    rw [List.append_assoc, List.append_assoc]
    rw [runTracker_append, hdfold, runTracker_append, ← hst1,
      runTracker_append, ← hst2, runTracker_finalTail]
  rw [hsplit]
  constructor
  · rw [List.chain'_append]
    refine ⟨?_, ?_, ?_⟩
    · rw [hdvals]
      exact chain_le_of_all_eq _ 10 (by simp)
    · rw [List.chain'_append]
      refine ⟨hchain_s, ?_, ?_⟩
      · rw [List.chain'_append]
        refine ⟨hchain_c, by simp [List.chain'_cons], ?_⟩
        · intro x hx y hy
          have hx2 := (hb_c x (mem_of_getLastq _ x (Option.mem_def.mp hx))).2
          have hy2 : 95 ≤ y := by
            have := mem_of_headq _ y (Option.mem_def.mp hy)
            simp at this
            omega
          omega
      · intro x hx y hy
        have hx2 := (hb_s x (mem_of_getLastq _ x (Option.mem_def.mp hx))).2
        have hy2 : 70 ≤ y := by
          have hmem := mem_of_headq _ y (Option.mem_def.mp hy)
          rcases List.mem_append.mp hmem with hmem | hmem
          · exact (hb_c y hmem).1
          · simp at hmem
            omega
        omega
    · intro x hx y hy
      have hx10 : x = 10 := by
        rw [hdvals] at hx
        have := mem_of_getLastq _ x (Option.mem_def.mp hx)
        simp at this
        exact this.2
      have hy2 : 20 ≤ y := by
        have hmem := mem_of_headq _ y (Option.mem_def.mp hy)
        rcases List.mem_append.mp hmem with hmem | hmem
        · exact (hb_s y hmem).1
        · rcases List.mem_append.mp hmem with hmem | hmem
          · have := (hb_c y hmem).1
            omega
          · simp at hmem
            omega
      omega
  · rw [List.getLast?_append_of_ne_nil _ (by simp),
      List.getLast?_append_of_ne_nil _ (by simp),
      List.getLast?_append_of_ne_nil _ (by simp)]
    rfl

/-- Witness for C3: the 11-signal, 5-category blueprint geometry with a
small concrete run. -/
theorem c3_progress_monotone_witness :
    List.Chain' (· ≤ ·)
      (runTracker { totalSignals := 11, totalCategories := 5 }
        ([TrackEvent.data] ++
         [TrackEvent.sigStart, TrackEvent.sigComplete] ++
         [TrackEvent.catStart, TrackEvent.catComplete] ++
         [TrackEvent.finalSynth 5, TrackEvent.finalSynth 7,
          TrackEvent.finalSynth 9, TrackEvent.completed]))
    ∧ (runTracker { totalSignals := 11, totalCategories := 5 }
        ([TrackEvent.data] ++
         [TrackEvent.sigStart, TrackEvent.sigComplete] ++
         [TrackEvent.catStart, TrackEvent.catComplete] ++
         [TrackEvent.finalSynth 5, TrackEvent.finalSynth 7,
          TrackEvent.finalSynth 9, TrackEvent.completed])).getLast? =
        some 100 :=
  c3_progress_monotone 11 5 _ (by decide) (by decide)
    ⟨[TrackEvent.data], [TrackEvent.sigStart, TrackEvent.sigComplete],
     [TrackEvent.catStart, TrackEvent.catComplete], rfl,
     by decide, by decide, by decide, by decide, by decide⟩

/-! ## Report blueprint (src/lib/report/blueprint.ts) -/

/-- A signal: one independent analysis task. -/
structure SignalDefinition where
  id : String
  name : String
  description : String
  dataRequirements : List String
deriving DecidableEq, Repr

/-- A category: a named group of signals. -/
structure CategoryDefinition where
  id : String
  name : String
  description : String
  emoji : String
  signals : List SignalDefinition
deriving DecidableEq, Repr

/-- REPORT_BLUEPRINT: the static plan of 5 categories and 11 signals. -/
def REPORT_BLUEPRINT : List CategoryDefinition :=
  [{ id := "game_context", name := "Game Context",
     description := "Essential match information and context",
     emoji := "⚽",
     signals :=
       [{ id := "home_vs_away", name := "Home vs Away Analysis",
          description :=
            "Team names, venue advantage, and basic matchup info",
          dataRequirements := ["fixture"] },
        { id := "competition_round_schedule", name := "Competition Context",
          description :=
            "League, round, season context, and schedule positioning",
          dataRequirements := ["fixture", "standings"] },
        { id := "kickoff_weather_pitch", name := "Match Conditions",
          description := "Kickoff time, weather conditions, pitch status",
          dataRequirements := ["fixture"] }] },
   { id := "team_context", name := "Team Context",
     description := "Recent form and tactical trends",
     emoji := "📊",
     signals :=
       [{ id := "recent_form_results", name := "Recent Form & Results",
          description :=
            "Last 5-10 matches for each team, win/loss patterns",
          dataRequirements := ["standings", "h2h"] },
        { id := "tactical_shape_trends", name := "Tactical Shape & Trends",
          description :=
            "Formation preferences, style of play, tactical evolution",
          dataRequirements := ["lineups", "statistics"] }] },
   { id := "key_players", name := "Key Players",
     description := "Critical players and lineup information",
     emoji := "⭐",
     signals :=
       [{ id := "key_players_lineup", name := "Key Players & Expected Lineup",
          description :=
            "Star players, probable starting XI, tactical roles",
          dataRequirements := ["lineups", "statistics"] },
        { id := "injury_report", name := "Injuries & Suspensions",
          description := "Unavailable players, impact on team strength",
          dataRequirements := ["injuries"] }] },
   { id := "tactical_battle", name := "Tactical Battle",
     description := "Strategic matchups and managerial approach",
     emoji := "🎯",
     signals :=
       [{ id := "managerial_approach", name := "Managerial Approach",
          description := "Coach philosophy, recent tactical decisions",
          dataRequirements := ["lineups", "statistics"] },
        { id := "matchup_analysis", name := "Key Matchups",
          description :=
            "Position-by-position battles, tactical weaknesses to exploit",
          dataRequirements := ["lineups", "statistics"] }] },
   { id := "psych_context", name := "Psychological Context",
     description := "Mental factors and historical context",
     emoji := "🧠",
     signals :=
       [{ id := "motivation_factors", name := "Motivation & Stakes",
          description :=
            "What each team is playing for, psychological drivers",
          dataRequirements := ["fixture", "standings"] },
        { id := "h2h_history_psychology", name := "Head-to-Head Psychology",
          description :=
            "Recent H2H results, psychological edge, historical trends",
          dataRequirements := ["h2h"] }] }]

/-- getAllSignals: every (categoryId, signal) pair in blueprint order. -/
def getAllSignals : List (String × SignalDefinition) :=
  REPORT_BLUEPRINT.flatMap (fun c => c.signals.map (fun sg => (c.id, sg)))

/-- The composite key category.signal of a signal task. -/
def signalKey (cid : String) (sg : SignalDefinition) : String :=
  cid ++ "." ++ sg.id

/-- All composite keys in task order. -/
def signalKeys : List String :=
  getAllSignals.map (fun p => signalKey p.1 p.2)

/-! ## Signal chain (src/lib/llm/chains/signal-chain.ts) -/

/-- The validated structured output of a signal analysis. -/
structure SignalReportOutput where
  insights : List String
  narrative : String
  emoji : String
  confidence : Rat
deriving DecidableEq, Repr

/-- The raw structured-output value before validation: any field may be
missing (or, for the strings, empty, which the truthiness checks treat
as missing). -/
structure RawSignalResult where
  insights : Option (List String) := none
  narrative : Option String := none
  emoji : Option String := none
  confidence : Option Rat := none
deriving DecidableEq, Repr

/-- The fixed fallback returned when the chain invocation throws. -/
def fallbackSignalReport (signalName : String) : SignalReportOutput :=
  { insights :=
      ["Unable to analyze " ++ signalName ++ " - data temporarily unavailable"],
    narrative := "Analysis for " ++ signalName
      ++ " could not be completed at this time due to processing limitations.",
    emoji := "⚽",
    confidence := 3/10 }

/-- The completeness check: !result.narrative || !result.emoji ||
typeof result.confidence !== a number. -/
def rawIncomplete (r : RawSignalResult) : Bool :=
  r.narrative.getD "" == "" || r.emoji.getD "" == "" || r.confidence.isNone

/-- Fill the missing fields with the fixed defaults (confidence 0.5). -/
def fillDefaults (r : RawSignalResult) : SignalReportOutput :=
  { insights := r.insights.getD [],
    narrative :=
      if r.narrative.getD "" == "" then
        "No narrative available - data analysis in progress."
      else r.narrative.getD "",
    emoji := if r.emoji.getD "" == "" then "⚽" else r.emoji.getD "",
    confidence := r.confidence.getD (1/2) }

/-- analyzeSignal: createSignalChain() runs before the try block, so a
chain-construction failure (getChatModel throws when OPENAI_API_KEY is
unset) propagates; a chain.invoke failure is caught and replaced by the
fixed fallback; an incomplete result is completed with defaults. -/
def analyzeSignal (chainCreation : Except String Unit)
    (invokeResult : Except String RawSignalResult) (signalName : String) :
    Except String SignalReportOutput :=
  match chainCreation with
  | Except.error e => Except.error e
  | Except.ok _ =>
    match invokeResult with
    | Except.error _ => Except.ok (fallbackSignalReport signalName)
    | Except.ok r =>
      if rawIncomplete r then Except.ok (fillDefaults r)
      else Except.ok
        { insights := r.insights.getD [], narrative := r.narrative.getD "",
          emoji := r.emoji.getD "", confidence := r.confidence.getD 0 }

/-! ## Pipeline orchestrator (src/lib/orchestrator/generator.ts,
class ReportGenerator)

Each external call is an oracle value in a PipelineEnv: the proxy
results of stage 1, the per-task outcome of the fallible portion of a
stage-2 task body (everything inside its try block, up to and including
analyzeSignal), the per-category merge outcome, and the final synthesis
outcome. Session writes go through applyUpdates, the mutation body of
SessionManager.updateSession. -/

/-- The shape of an APIFootballProxy result. -/
structure FetchOutcome (α : Type) where
  success : Bool := false
  data : Option α := none
  error : Option String := none

/-- The merge-chain structured output. -/
structure CategoryMergeOutput where
  title : String
  sections : List ReportSection
  talkingPoints : List String
deriving DecidableEq, Repr

/-- The oracle for one pipeline run. -/
structure PipelineEnv where
  fixtures : FetchOutcome (List Fixture) := {}
  statistics : FetchOutcome String := {}
  injuries : FetchOutcome String := {}
  lineups : FetchOutcome String := {}
  h2h : FetchOutcome String := {}
  standings : FetchOutcome String := {}
  standingsFallback : FetchOutcome String := {}
  signalTask : String → Except String SignalReportOutput
  merge : String → Except String CategoryMergeOutput
  synthesis : Except String String

/-- Prefix test on character lists. -/
def charsPrefix : List Char → List Char → Bool
  | [], _ => true
  | _ :: _, [] => false
  | a :: as, b :: bs => a == b && charsPrefix as bs

/-- Substring test on character lists. -/
def charsContains (needle : List Char) : List Char → Bool
  | [] => charsPrefix needle []
  | c :: rest => charsPrefix needle (c :: rest) || charsContains needle rest

/-- String.includes. -/
def strContains (hay needle : String) : Bool :=
  charsContains needle.data hay.data

/-- The stage-1 guard on the primary fetch: success, data present,
length > 0; yields the first fixture. -/
def fixtureOk (r : FetchOutcome (List Fixture)) : Option Fixture :=
  if r.success then
    match r.data with
    | some (fx :: _) => some fx
    | _ => none
  else none

/-- A best-effort fragment fetch: on success with data, merge the
fragment into collectedData; otherwise leave the session unchanged. -/
def bestEffort (s : Session) (r : FetchOutcome String)
    (mk : String → CollectedDataPatch) : Session :=
  match r.success, r.data with
  | true, some d => applyUpdates s { collectedData := some (mk d) }
  | _, _ => s

/-- The standings step: on success store; on failure whose message
includes the Free plans marker, retry with the fallback season and
store that result as if it were the primary. -/
def standingsStep (env : PipelineEnv) (s : Session) : Session :=
  match env.standings.success, env.standings.data with
  | true, some d =>
    applyUpdates s { collectedData := some { standings := some d } }
  | _, _ =>
    if !env.standings.success
        && strContains (env.standings.error.getD "") "Free plans" then
      bestEffort s env.standingsFallback (fun d => { standings := some d })
    else s

/-- Stage 1, ReportGenerator.collectData: the primary fixture fetch is
load-bearing and its failure throws; every other fragment fetch is
best-effort. Errors carry the session state at the throw point. -/
def collectData (env : PipelineEnv) (s : Session) :
    Except (String × Session) Session :=
  match fixtureOk env.fixtures with
  | none => Except.error ("Failed to fetch fixture details", s)
  | some fx =>
    let s1 := applyUpdates s { collectedData := some { fixture := some fx } }
    let s2 := bestEffort s1 env.statistics (fun d => { statistics := some d })
    let s3 := bestEffort s2 env.injuries (fun d => { injuries := some d })
    let s4 := bestEffort s3 env.lineups (fun d => { lineups := some d })
    let s5 := bestEffort s4 env.h2h (fun d => { h2h := some d })
    Except.ok (standingsStep env s5)

/-- One stage-2 task following ReportGenerator.generateSignals: on
success write the partial report under the composite key; a failure is
caught at the task boundary and leaves the session unchanged. -/
def mkPartialReport (cid : String) (sg : SignalDefinition)
    (out : SignalReportOutput) : PartialReport :=
  { categoryId := cid, signalId := sg.id, title := sg.name,
    insights := out.insights, narrative := out.narrative,
    emoji := out.emoji, confidence := out.confidence }

def runSignalTask (env : PipelineEnv) (s : Session) (cid : String)
    (sg : SignalDefinition) : Session :=
  match env.signalTask (signalKey cid sg) with
  | Except.error _ => s
  | Except.ok out =>
    applyUpdates s
      { partialReport := some (signalKey cid sg, mkPartialReport cid sg out) }

/-- The worker-pool fold step: run the task, append its key to the
executed log. -/
def sigStepFold (env : PipelineEnv) :
    (Session × List String) → (String × SignalDefinition) →
      (Session × List String) :=
  fun acc p =>
    (runSignalTask env acc.1 p.1 p.2, acc.2 ++ [signalKey p.1 p.2])

/-- Stage 2, ReportGenerator.generateSignals. The worker pool claims
task indices in order and every task writes only its own composite key,
so the stage is the fold of the tasks over the session; order
independence of the keyed writes is claim C1. Returns the session and
the executed-task log. -/
def generateSignals (env : PipelineEnv) (s : Session) :
    Except (String × Session) (Session × List String) :=
  if s.collectedData.fixture.isNone then
    Except.error ("Fixture data not available", s)
  else
    Except.ok (getAllSignals.foldl (sigStepFold env) (s, []))

/-- One stage-3 category merge: gather the partial reports present for
the category signals; skip the category when none are present or when
the merge call fails; otherwise store the category report. -/
def mergeOneCategory (env : PipelineEnv) (s : Session)
    (cat : CategoryDefinition) : Session :=
  if (cat.signals.filterMap
      (fun sg => s.partialReports.lookup (signalKey cat.id sg))).isEmpty then
    s
  else
    match env.merge cat.id with
    | Except.error _ => s
    | Except.ok out =>
      applyUpdates s
        { categoryReport := some (cat.id,
            { categoryId := cat.id, title := out.title,
              sections := out.sections,
              talkingPoints := out.talkingPoints }) }

/-- Stage 3, ReportGenerator.mergeCategories: sequential over blueprint
order. -/
def mergeCategories (env : PipelineEnv) (s : Session) :
    Except (String × Session) Session :=
  if s.collectedData.fixture.isNone then
    Except.error ("Fixture data not available", s)
  else
    Except.ok (REPORT_BLUEPRINT.foldl (mergeOneCategory env) s)

/-- Stage 4, ReportGenerator.synthesizeFinal: one synthesis call; on
success store the formatted markdown, on failure rethrow. -/
def synthesizeFinal (env : PipelineEnv) (s : Session) :
    Except (String × Session) Session :=
  if s.collectedData.fixture.isNone then
    Except.error ("Fixture data not available", s)
  else
    match env.synthesis with
    | Except.error e => Except.error (e, s)
    | Except.ok md => Except.ok (applyUpdates s { finalReport := some md })

/-- The four stages in order; an error carries the thrown message, the
session at the throw point, and the executed-task log so far. -/
def generateRun (env : PipelineEnv) (s1 : Session) :
    Except (String × Session × List String) (Session × List String) :=
  match collectData env s1 with
  | Except.error q => Except.error (q.1, q.2, [])
  | Except.ok sA =>
    match generateSignals env sA with
    | Except.error q => Except.error (q.1, q.2, [])
    | Except.ok p =>
      match mergeCategories env p.1 with
      | Except.error q => Except.error (q.1, q.2, p.2)
      | Except.ok sC =>
        match synthesizeFinal env sC with
        | Except.error q => Except.error (q.1, q.2, p.2)
        | Except.ok sD => Except.ok (sD, p.2)

/-- The outcome of ReportGenerator.generate: the final session, the
executed stage-2 tasks, the status values written in order, and the
propagated error if any. -/
structure GenerateResult where
  session : Session
  executedSignals : List String
  statusWrites : List SessionStatus
  thrown : Option String

/-- ReportGenerator.generate: set status generating, run the stages; on
success set status completed; on any stage throw set status error and
store the message. -/
def generate (env : PipelineEnv) (s0 : Session) : GenerateResult :=
  match generateRun env
      (applyUpdates s0 { status := some SessionStatus.generating }) with
  | Except.ok p =>
    { session := applyUpdates p.1 { status := some SessionStatus.completed },
      executedSignals := p.2,
      statusWrites := [SessionStatus.generating, SessionStatus.completed],
      thrown := none }
  | Except.error q =>
    { session := applyUpdates q.2.1
        { status := some SessionStatus.error, error := some q.1 },
      executedSignals := q.2.2,
      statusWrites := [SessionStatus.generating, SessionStatus.error],
      thrown := some q.1 }

/-! ## Claim C4: primary fetch failure is fatal -/

/-- C4: if the primary fixture fetch of stage 1 fails, the pipeline
aborts: the session ends with status error and the stored error message,
and no stage-2 signal task executes. -/
theorem c4_primary_fetch_fatal (env : PipelineEnv) (s0 : Session)
    (hfail : fixtureOk env.fixtures = none) :
    (generate env s0).session.status = SessionStatus.error
    ∧ (generate env s0).session.error =
        some "Failed to fetch fixture details"
    ∧ (generate env s0).executedSignals = [] := by
  unfold generate generateRun collectData
  rw [hfail]
  exact ⟨rfl, rfl, rfl⟩

/-- A pipeline oracle whose primary fetch fails (rate limited). -/
def cEnvC4 : PipelineEnv :=
  { fixtures :=
      { success := false,
        error := some "API rate limit exceeded. Please try again in a moment." },
    signalTask := fun _ => Except.error "unused",
    merge := fun _ => Except.error "unused",
    synthesis := Except.error "unused" }

/-- A fresh pending session for pipeline witnesses. -/
def cSession0 : Session :=
  { sessionId := "s", fixtureId := 12345, createdAt := 0,
    status := SessionStatus.pending }

/-- Witness for C4. -/
theorem c4_primary_fetch_fatal_witness :
    (generate cEnvC4 cSession0).session.status = SessionStatus.error
    ∧ (generate cEnvC4 cSession0).session.error =
        some "Failed to fetch fixture details"
    ∧ (generate cEnvC4 cSession0).executedSignals = [] :=
  c4_primary_fetch_fatal cEnvC4 cSession0 rfl

/-! ## Field-preservation lemmas for the pipeline stages -/

theorem foldl_preserve {α β : Type} (f : β → α → β) (P : β → Prop)
    (hstep : ∀ b a, P b → P (f b a)) :
    ∀ (l : List α) (b : β), P b → P (l.foldl f b) := by
  intro l
  induction l with
  | nil => exact fun b hb => hb
  | cons a t ih => exact fun b hb => ih _ (hstep b a hb)

theorem bestEffort_fields (s : Session) (r : FetchOutcome String)
    (mk : String → CollectedDataPatch) (hmk : ∀ d, (mk d).fixture = none) :
    (bestEffort s r mk).collectedData.fixture = s.collectedData.fixture
    ∧ (bestEffort s r mk).status = s.status
    ∧ (bestEffort s r mk).error = s.error
    ∧ (bestEffort s r mk).finalReport = s.finalReport
    ∧ (bestEffort s r mk).partialReports = s.partialReports
    ∧ (bestEffort s r mk).categoryReports = s.categoryReports := by
  unfold bestEffort
  rcases hs : r.success with _ | _ <;> rcases hd : r.data with _ | d
  · exact ⟨rfl, rfl, rfl, rfl, rfl, rfl⟩
  · exact ⟨rfl, rfl, rfl, rfl, rfl, rfl⟩
  · exact ⟨rfl, rfl, rfl, rfl, rfl, rfl⟩
  · refine ⟨?_, rfl, rfl, rfl, rfl, rfl⟩
    simp [applyUpdates, mergeCollected, hmk d]

theorem standingsStep_fields (env : PipelineEnv) (s : Session) :
    (standingsStep env s).collectedData.fixture = s.collectedData.fixture
    ∧ (standingsStep env s).status = s.status
    ∧ (standingsStep env s).error = s.error
    ∧ (standingsStep env s).finalReport = s.finalReport
    ∧ (standingsStep env s).partialReports = s.partialReports
    ∧ (standingsStep env s).categoryReports = s.categoryReports := by
  unfold standingsStep
  rcases hs : env.standings.success with _ | _ <;>
    rcases hd : env.standings.data with _ | d <;>
    first
      | exact ⟨rfl, rfl, rfl, rfl, rfl, rfl⟩
      | (split_ifs <;>
          first
            | exact ⟨rfl, rfl, rfl, rfl, rfl, rfl⟩
            | exact bestEffort_fields s env.standingsFallback
                (fun d => { standings := some d }) (fun d => rfl))

/-- Stage 1 on a successful primary fetch: the fixture is stored, and
the session fields other than collectedData are untouched. -/
theorem collectData_ok (env : PipelineEnv) (s : Session) (fx : Fixture)
    (hfx : fixtureOk env.fixtures = some fx) :
    ∃ s2, collectData env s = Except.ok s2
      ∧ s2.collectedData.fixture = some fx
      ∧ s2.status = s.status ∧ s2.error = s.error
      ∧ s2.finalReport = s.finalReport
      ∧ s2.partialReports = s.partialReports
      ∧ s2.categoryReports = s.categoryReports := by
  unfold collectData
  rw [hfx]
  set s1 : Session :=
    applyUpdates s { collectedData := some { fixture := some fx } } with hs1
  have h1fix : s1.collectedData.fixture = some fx := by
    simp [hs1, applyUpdates, mergeCollected]
  set s2 := bestEffort s1 env.statistics (fun d => { statistics := some d })
    with hs2
  have h2 := bestEffort_fields s1 env.statistics
    (fun d => { statistics := some d }) (fun d => rfl)
  set s3 := bestEffort s2 env.injuries (fun d => { injuries := some d })
    with hs3
  have h3 := bestEffort_fields s2 env.injuries
    (fun d => { injuries := some d }) (fun d => rfl)
  set s4 := bestEffort s3 env.lineups (fun d => { lineups := some d })
    with hs4
  have h4 := bestEffort_fields s3 env.lineups
    (fun d => { lineups := some d }) (fun d => rfl)
  set s5 := bestEffort s4 env.h2h (fun d => { h2h := some d }) with hs5
  have h5 := bestEffort_fields s4 env.h2h
    (fun d => { h2h := some d }) (fun d => rfl)
  have h6 := standingsStep_fields env s5
  refine ⟨standingsStep env s5, rfl, ?_, ?_, ?_, ?_, ?_, ?_⟩
  · rw [h6.1, h5.1, h4.1, h3.1, h2.1, h1fix]
  · rw [h6.2.1, h5.2.1, h4.2.1, h3.2.1, h2.2.1]
    rfl
  · rw [h6.2.2.1, h5.2.2.1, h4.2.2.1, h3.2.2.1, h2.2.2.1]
    rfl
  · rw [h6.2.2.2.1, h5.2.2.2.1, h4.2.2.2.1, h3.2.2.2.1, h2.2.2.2.1]
    rfl
  · rw [h6.2.2.2.2.1, h5.2.2.2.2.1, h4.2.2.2.2.1, h3.2.2.2.2.1,
      h2.2.2.2.2.1]
    rfl
  · rw [h6.2.2.2.2.2, h5.2.2.2.2.2, h4.2.2.2.2.2, h3.2.2.2.2.2,
      h2.2.2.2.2.2]
    rfl

theorem runSignalTask_fields (env : PipelineEnv) (s : Session)
    (cid : String) (sg : SignalDefinition) :
    (runSignalTask env s cid sg).collectedData = s.collectedData
    ∧ (runSignalTask env s cid sg).status = s.status
    ∧ (runSignalTask env s cid sg).error = s.error
    ∧ (runSignalTask env s cid sg).finalReport = s.finalReport
    ∧ (runSignalTask env s cid sg).categoryReports = s.categoryReports := by
  unfold runSignalTask
  cases env.signalTask (signalKey cid sg) with
  | error e => exact ⟨rfl, rfl, rfl, rfl, rfl⟩
  | ok out => exact ⟨rfl, rfl, rfl, rfl, rfl⟩

theorem mergeOneCategory_fields (env : PipelineEnv) (s : Session)
    (cat : CategoryDefinition) :
    (mergeOneCategory env s cat).collectedData = s.collectedData
    ∧ (mergeOneCategory env s cat).status = s.status
    ∧ (mergeOneCategory env s cat).error = s.error
    ∧ (mergeOneCategory env s cat).finalReport = s.finalReport
    ∧ (mergeOneCategory env s cat).partialReports = s.partialReports := by
  unfold mergeOneCategory
  split_ifs with hp
  · exact ⟨rfl, rfl, rfl, rfl, rfl⟩
  · rcases hm : env.merge cat.id with e | out <;> simp [hm, applyUpdates]

/-! ## Stage-2 fold lemmas -/

theorem applyUpdates_partialReport_pair (s : Session)
    (kr : String × PartialReport) :
    (applyUpdates s { partialReport := some kr }).partialReports =
      recordSet s.partialReports kr.1 kr.2 := rfl

theorem runSignalTask_lookup_ne (env : PipelineEnv) (s : Session)
    (cid : String) (sg : SignalDefinition) (k : String)
    (h : k ≠ signalKey cid sg) :
    (runSignalTask env s cid sg).partialReports.lookup k =
      s.partialReports.lookup k := by
  unfold runSignalTask
  rcases ht : env.signalTask (signalKey cid sg) with e | out
  · rfl
  · rw [applyUpdates_partialReport_pair]
    exact lookup_recordSet_ne _ _ _ _ h

theorem runSignalTask_lookup_ok (env : PipelineEnv) (s : Session)
    (cid : String) (sg : SignalDefinition) (out : SignalReportOutput)
    (h : env.signalTask (signalKey cid sg) = Except.ok out) :
    (runSignalTask env s cid sg).partialReports.lookup (signalKey cid sg) =
      some (mkPartialReport cid sg out) := by
  unfold runSignalTask
  rw [h, applyUpdates_partialReport_pair]
  exact lookup_recordSet_self _ _ _

theorem runSignalTask_err (env : PipelineEnv) (s : Session)
    (cid : String) (sg : SignalDefinition) (e : String)
    (h : env.signalTask (signalKey cid sg) = Except.error e) :
    runSignalTask env s cid sg = s := by
  unfold runSignalTask
  rw [h]

theorem sigFold_log (env : PipelineEnv)
    (l : List (String × SignalDefinition)) :
    ∀ (s : Session) (log : List String),
      (l.foldl (sigStepFold env) (s, log)).2 =
        log ++ l.map (fun p => signalKey p.1 p.2) := by
  induction l with
  | nil => intro s log; simp
  | cons q t ih =>
    intro s log
    simp only [List.foldl_cons, sigStepFold]
    rw [ih]
    simp

theorem sigFold_untouched (env : PipelineEnv)
    (l : List (String × SignalDefinition)) :
    ∀ (s : Session) (log : List String) (k : String),
      k ∉ l.map (fun p => signalKey p.1 p.2) →
      (l.foldl (sigStepFold env) (s, log)).1.partialReports.lookup k =
        s.partialReports.lookup k := by
  induction l with
  | nil => intro s log k _; rfl
  | cons q t ih =>
    intro s log k hk
    simp only [List.map, List.mem_cons] at hk
    push_neg at hk
    simp only [List.foldl_cons, sigStepFold]
    rw [ih _ _ k hk.2]
    exact runSignalTask_lookup_ne env s q.1 q.2 k hk.1

theorem sigFold_ok (env : PipelineEnv)
    (l : List (String × SignalDefinition)) :
    (l.map (fun p => signalKey p.1 p.2)).Nodup →
    ∀ (s : Session) (log : List String) (p : String × SignalDefinition)
      (out : SignalReportOutput), p ∈ l →
      env.signalTask (signalKey p.1 p.2) = Except.ok out →
      (l.foldl (sigStepFold env) (s, log)).1.partialReports.lookup
          (signalKey p.1 p.2) = some (mkPartialReport p.1 p.2 out) := by
  induction l with
  | nil => intro _ s log p out hp; simp at hp
  | cons q t ih =>
    intro hnd s log p out hp htask
    rw [List.map_cons] at hnd
    have hnd2 := List.nodup_cons.mp hnd
    simp only [List.foldl_cons, sigStepFold]
    rcases List.mem_cons.mp hp with he | hmem
    · subst he
      rw [sigFold_untouched env t _ _ _ hnd2.1]
      exact runSignalTask_lookup_ok env s p.1 p.2 out htask
    · exact ih hnd2.2 _ _ p out hmem htask

theorem sigFold_err (env : PipelineEnv)
    (l : List (String × SignalDefinition)) :
    (l.map (fun p => signalKey p.1 p.2)).Nodup →
    ∀ (s : Session) (log : List String) (p : String × SignalDefinition)
      (e : String), p ∈ l →
      env.signalTask (signalKey p.1 p.2) = Except.error e →
      (l.foldl (sigStepFold env) (s, log)).1.partialReports.lookup
          (signalKey p.1 p.2) = s.partialReports.lookup (signalKey p.1 p.2) := by
  induction l with
  | nil => intro _ s log p e hp; simp at hp
  | cons q t ih =>
    intro hnd s log p e hp htask
    rw [List.map_cons] at hnd
    have hnd2 := List.nodup_cons.mp hnd
    simp only [List.foldl_cons, sigStepFold]
    rcases List.mem_cons.mp hp with he | hmem
    · subst he
      rw [sigFold_untouched env t _ _ _ hnd2.1]
      rw [runSignalTask_err env s p.1 p.2 e htask]
    · have hne : signalKey p.1 p.2 ≠ signalKey q.1 q.2 := by
        intro hcontra
        exact hnd2.1 (hcontra ▸ List.mem_map_of_mem
          (fun p => signalKey p.1 p.2) hmem)
      rw [ih hnd2.2 _ _ p e hmem htask]
      exact runSignalTask_lookup_ne env s q.1 q.2 _ hne

theorem isNone_false_of_isSome {α : Type} (o : Option α)
    (h : o.isSome = true) : o.isNone = false := by
  cases o with
  | none => simp at h
  | some a => rfl

/-! ## Claim C6: a failing signal task is isolated -/

/-- C6: a stage-2 task failure is caught at the task boundary: the
stage still returns successfully with every task executed, the failed
composite key is absent from partialResults, and every other task whose
outcome succeeds writes its own report. -/
theorem c6_task_failure_isolated (env : PipelineEnv) (s : Session)
    (k e : String)
    (hk : k ∈ signalKeys)
    (hfx : s.collectedData.fixture.isSome = true)
    (hempty : s.partialReports = [])
    (hfail : env.signalTask k = Except.error e) :
    ∃ s2, generateSignals env s = Except.ok (s2, signalKeys)
      ∧ s2.partialReports.lookup k = none
      ∧ ∀ p ∈ getAllSignals, ∀ out : SignalReportOutput,
          signalKey p.1 p.2 ≠ k →
          env.signalTask (signalKey p.1 p.2) = Except.ok out →
          s2.partialReports.lookup (signalKey p.1 p.2) =
            some (mkPartialReport p.1 p.2 out) := by
  have hnd : (getAllSignals.map (fun p => signalKey p.1 p.2)).Nodup := by
    decide
  have hgen : generateSignals env s =
      Except.ok (getAllSignals.foldl (sigStepFold env) (s, [])) := by
    unfold generateSignals
    rw [isNone_false_of_isSome _ hfx]
    simp
  obtain ⟨p0, hp0, hkey⟩ := List.mem_map.mp hk
  refine ⟨(getAllSignals.foldl (sigStepFold env) (s, [])).1, ?_, ?_, ?_⟩
  · rw [hgen]
    have hlog := sigFold_log env getAllSignals s []
    have : (getAllSignals.foldl (sigStepFold env) (s, [])) =
        ((getAllSignals.foldl (sigStepFold env) (s, [])).1,
         (getAllSignals.foldl (sigStepFold env) (s, [])).2) := rfl
    rw [this, hlog]
    rfl
  · subst hkey
    rw [sigFold_err env getAllSignals hnd s [] p0 e hp0 hfail, hempty]
    rfl
  · intro p hp out hne htask
    exact sigFold_ok env getAllSignals hnd s [] p out hp htask

/-- A successful signal output for witnesses. -/
def wSignalOut : SignalReportOutput :=
  { insights := ["insight"], narrative := "narrative", emoji := "⚽",
    confidence := 8/10 }

/-- An oracle where exactly one task fails. -/
def cEnvC6 : PipelineEnv :=
  { fixtures := { success := true, data := none },
    signalTask := fun k =>
      if k == "team_context.recent_form_results" then
        Except.error "LLM timeout"
      else Except.ok wSignalOut,
    merge := fun _ => Except.error "unused",
    synthesis := Except.error "unused" }

/-- A fixture for witnesses. -/
def wFixture : Fixture :=
  { home := { id := 33, name := "Home FC" },
    away := { id := 34, name := "Away FC" },
    league := { id := 39, name := "Premier League", season := 2023 },
    date := "2023-08-12" }

/-- A generating session that already holds the fixture fragment. -/
def cSessionFx : Session :=
  { sessionId := "s", fixtureId := 12345, createdAt := 0,
    status := SessionStatus.generating,
    collectedData := { fixture := some wFixture } }

/-- Witness for C6: one failing task out of eleven. -/
theorem c6_task_failure_isolated_witness :
    ∃ s2, generateSignals cEnvC6 cSessionFx = Except.ok (s2, signalKeys)
      ∧ s2.partialReports.lookup "team_context.recent_form_results" = none
      ∧ ∀ p ∈ getAllSignals, ∀ out : SignalReportOutput,
          signalKey p.1 p.2 ≠ "team_context.recent_form_results" →
          cEnvC6.signalTask (signalKey p.1 p.2) = Except.ok out →
          s2.partialReports.lookup (signalKey p.1 p.2) =
            some (mkPartialReport p.1 p.2 out) :=
  c6_task_failure_isolated cEnvC6 cSessionFx
    "team_context.recent_form_results" "LLM timeout"
    (by decide) rfl rfl rfl

/-! ## Claim C5: final synthesis failure -/

theorem applyUpdates_statusError_status (s : Session) (e : String) :
    (applyUpdates s
      { status := some SessionStatus.error, error := some e }).status =
      SessionStatus.error := by
  by_cases he : e = ""
  · have hb : (e == "") = true := by simp [he]
    simp [applyUpdates, hb]
  · have hb : (e == "") = false := by simp [he]
    simp [applyUpdates, hb]

theorem applyUpdates_statusError_error (s : Session) (e : String)
    (he : e ≠ "") :
    (applyUpdates s
      { status := some SessionStatus.error, error := some e }).error =
      some e := by
  have hb : (e == "") = false := by simp [he]
  simp [applyUpdates, hb]

theorem applyUpdates_statusError_error_empty (s : Session) :
    (applyUpdates s
      { status := some SessionStatus.error, error := some "" }).error =
      s.error := by
  simp [applyUpdates]

theorem applyUpdates_statusError_finalReport (s : Session) (e : String) :
    (applyUpdates s
      { status := some SessionStatus.error, error := some e }).finalReport =
      s.finalReport := by
  by_cases he : e = ""
  · have hb : (e == "") = true := by simp [he]
    simp [applyUpdates, hb]
  · have hb : (e == "") = false := by simp [he]
    simp [applyUpdates, hb]

theorem mergeCategories_ok (env : PipelineEnv) (s : Session)
    (hfx : s.collectedData.fixture.isSome = true) :
    mergeCategories env s =
      Except.ok (REPORT_BLUEPRINT.foldl (mergeOneCategory env) s) := by
  unfold mergeCategories
  rw [isNone_false_of_isSome _ hfx]
  simp

theorem synthesizeFinal_err (env : PipelineEnv) (s : Session) (msg : String)
    (hfx : s.collectedData.fixture.isSome = true)
    (hsyn : env.synthesis = Except.error msg) :
    synthesizeFinal env s = Except.error (msg, s) := by
  unfold synthesizeFinal
  rw [isNone_false_of_isSome _ hfx, hsyn]
  simp

/-- C5 amended: if stage-1 and stages 2-3 run (primary fetch succeeds)
and the final synthesis call throws a nonempty message, the session
ends with status error, the error field holds the thrown message, and
no final artifact is stored. The nonemptiness hypothesis is forced by
the truthiness guard in updateSession: an empty thrown message is
silently dropped and leaves the error field unset (see the
counterexample). -/
theorem c5_amended_synthesis_error (env : PipelineEnv) (s0 : Session)
    (msg : String) (fx : Fixture)
    (hfx : fixtureOk env.fixtures = some fx)
    (hsyn : env.synthesis = Except.error msg)
    (hmsg : msg ≠ "")
    (hfinal : s0.finalReport = none) :
    (generate env s0).session.status = SessionStatus.error
    ∧ (generate env s0).session.error = some msg
    ∧ (generate env s0).session.finalReport = none := by
  set s1 : Session :=
    applyUpdates s0 { status := some SessionStatus.generating } with hs1
  have h1final : s1.finalReport = s0.finalReport := rfl
  obtain ⟨s2, hcd, h2fix, _, _, h2final, _, _⟩ := collectData_ok env s1 fx hfx
  have h2some : s2.collectedData.fixture.isSome = true := by
    rw [h2fix]
    rfl
  have hgen : generateSignals env s2 =
      Except.ok (getAllSignals.foldl (sigStepFold env) (s2, [])) := by
    unfold generateSignals
    rw [isNone_false_of_isSome _ h2some]
    simp
  set sB : Session := (getAllSignals.foldl (sigStepFold env) (s2, [])).1
    with hsB
  have hBkeep : sB.finalReport = s2.finalReport
      ∧ sB.collectedData = s2.collectedData := by
    have := foldl_preserve (sigStepFold env)
      (fun pr : Session × List String =>
        pr.1.finalReport = s2.finalReport
        ∧ pr.1.collectedData = s2.collectedData)
      (fun b a hb => by
        obtain ⟨hfin, hcoll⟩ := hb
        have hf := runSignalTask_fields env b.1 a.1 a.2
        exact ⟨hf.2.2.2.1.trans hfin, hf.1.trans hcoll⟩)
      getAllSignals (s2, []) ⟨rfl, rfl⟩
    exact this
  have hBsome : sB.collectedData.fixture.isSome = true := by
    rw [hBkeep.2]
    exact h2some
  have hmc : mergeCategories env sB =
      Except.ok (REPORT_BLUEPRINT.foldl (mergeOneCategory env) sB) :=
    mergeCategories_ok env sB hBsome
  set sC : Session := REPORT_BLUEPRINT.foldl (mergeOneCategory env) sB
    with hsC
  have hCkeep : sC.finalReport = sB.finalReport
      ∧ sC.collectedData = sB.collectedData := by
    have := foldl_preserve (mergeOneCategory env)
      (fun s : Session =>
        s.finalReport = sB.finalReport
        ∧ s.collectedData = sB.collectedData)
      (fun b a hb => by
        obtain ⟨hfin, hcoll⟩ := hb
        have hf := mergeOneCategory_fields env b a
        exact ⟨hf.2.2.2.1.trans hfin, hf.1.trans hcoll⟩)
      REPORT_BLUEPRINT sB ⟨rfl, rfl⟩
    exact this
  have hCsome : sC.collectedData.fixture.isSome = true := by
    rw [hCkeep.2]
    exact hBsome
  have hsf : synthesizeFinal env sC = Except.error (msg, sC) :=
    synthesizeFinal_err env sC msg hCsome hsyn
  have hrun : generateRun env s1 = Except.error (msg, sC,
      (getAllSignals.foldl (sigStepFold env) (s2, [])).2) := by
    unfold generateRun
    simp only [hcd, hgen, ← hsB, hmc, ← hsC, hsf]
  have hout : generate env s0 =
      { session :=
          applyUpdates sC
            { status := some SessionStatus.error, error := some msg },
        executedSignals :=
          (getAllSignals.foldl (sigStepFold env) (s2, [])).2,
        statusWrites := [SessionStatus.generating, SessionStatus.error],
        thrown := some msg } := by
    unfold generate
    rw [← hs1]
    simp only [hrun]
  rw [hout]
  refine ⟨applyUpdates_statusError_status sC msg,
    applyUpdates_statusError_error sC msg hmsg, ?_⟩
  rw [applyUpdates_statusError_finalReport sC msg, hCkeep.1, hBkeep.1,
    h2final, h1final, hfinal]

/-- An oracle where every stage up to synthesis can run and the final
synthesis throws a nonempty message. -/
def cEnvC5 : PipelineEnv :=
  { fixtures := { success := true, data := some [wFixture] },
    signalTask := fun _ => Except.ok wSignalOut,
    merge := fun _ =>
      Except.ok { title := "T", sections := [], talkingPoints := [] },
    synthesis := Except.error "LLM synthesis failed" }

/-- Witness for the amended C5. -/
theorem c5_amended_synthesis_error_witness :
    (generate cEnvC5 cSession0).session.status = SessionStatus.error
    ∧ (generate cEnvC5 cSession0).session.error =
        some "LLM synthesis failed"
    ∧ (generate cEnvC5 cSession0).session.finalReport = none :=
  c5_amended_synthesis_error cEnvC5 cSession0 "LLM synthesis failed"
    wFixture rfl rfl (by decide) rfl

/-- An oracle identical to cEnvC5 except the synthesis throws an error
whose message is the empty string. -/
def cEnvC5empty : PipelineEnv :=
  { fixtures := { success := true, data := some [wFixture] },
    signalTask := fun _ => Except.ok wSignalOut,
    merge := fun _ =>
      Except.ok { title := "T", sections := [], talkingPoints := [] },
    synthesis := Except.error "" }

/-- C5 counterexample: when the final synthesis throws an error whose
message is the empty string, the session does end in status error, but
the error field does NOT equal the thrown message: the truthiness guard
if updates.error in updateSession skips the empty string, leaving the
field unset. So the claim that the error field always equals the thrown
message fails. -/
theorem c5_counterexample :
    (generate cEnvC5empty cSession0).thrown = some ""
    ∧ (generate cEnvC5empty cSession0).session.status = SessionStatus.error
    ∧ (generate cEnvC5empty cSession0).session.error = none
    ∧ (generate cEnvC5empty cSession0).session.error ≠ some "" := by
  refine ⟨rfl, rfl, rfl, by decide⟩

/-! ## Claim C9: status state machine and terminal immutability -/

/-- A session already completed with a stored final report. -/
def c9CompletedSession : Session :=
  { sessionId := "done-1", fixtureId := 777, createdAt := 0,
    status := SessionStatus.completed, finalReport := some "# Report" }

/-- A store holding the completed session. -/
def c9Store : SessionManager :=
  { sessions := [("done-1", c9CompletedSession)], ttl := 7200000 }

/-- C9 counterexample: SessionManager.updateSession enforces nothing:
applied to a session whose status is completed, a status update simply
overwrites it, moving the session back to generating. So the store does
not guarantee that status never regresses, nor that a terminal session
is immutable except for chat appends; the generate route will do
exactly this write when the caller re-runs generation on a completed
session. -/
theorem c9_counterexample :
    c9CompletedSession.status = SessionStatus.completed
    ∧ ((c9Store.updateSession 1 "done-1"
        { status := some SessionStatus.generating }).2.sessions.lookup
        "done-1").map Session.status = some SessionStatus.generating
    ∧ ((c9Store.updateSession 1 "done-1"
        { status := some SessionStatus.generating }).2.sessions.lookup
        "done-1").map Session.status ≠ some SessionStatus.completed := by
  refine ⟨rfl, rfl, by decide⟩

/-- C9 amended: the store applies any requested update unconditionally,
so forward-only movement is a property of the orchestrator, not of
updateSession. Within one modelled pipeline run the status writes are
exactly generating followed by one terminal status - completed on
success, error on failure - and the session ends in that terminal
status; no write follows the terminal one. -/
theorem c9_amended_forward_status (env : PipelineEnv) (s0 : Session)
    (h0 : s0.status = SessionStatus.pending) :
    ((generate env s0).statusWrites =
        [SessionStatus.generating, SessionStatus.completed]
      ∧ (generate env s0).session.status = SessionStatus.completed)
    ∨ ((generate env s0).statusWrites =
        [SessionStatus.generating, SessionStatus.error]
      ∧ (generate env s0).session.status = SessionStatus.error) := by
  unfold generate
  rcases hr : generateRun env
      (applyUpdates s0 { status := some SessionStatus.generating }) with q | p
  · right
    obtain ⟨e, sE, log⟩ := q
    exact ⟨rfl, applyUpdates_statusError_status sE e⟩
  · left
    exact ⟨rfl, rfl⟩

/-- Witness for the amended C9 on the concrete synthesis-failure run. -/
theorem c9_amended_forward_status_witness :
    ((generate cEnvC5 cSession0).statusWrites =
        [SessionStatus.generating, SessionStatus.completed]
      ∧ (generate cEnvC5 cSession0).session.status =
          SessionStatus.completed)
    ∨ ((generate cEnvC5 cSession0).statusWrites =
        [SessionStatus.generating, SessionStatus.error]
      ∧ (generate cEnvC5 cSession0).session.status =
          SessionStatus.error) :=
  c9_amended_forward_status cEnvC5 cSession0 rfl

/-! ## Claim C10: analyzeSignal error containment -/

/-- C10 counterexample: createSignalChain() is invoked before the try
block of analyzeSignal, and getChatModel throws when OPENAI_API_KEY is
unset, so analyzeSignal does propagate that error instead of returning
a result: the claim that analyzeSignal never propagates an error for
every input fails. -/
theorem c10_counterexample :
    analyzeSignal
      (Except.error "OPENAI_API_KEY environment variable is not set")
      (Except.ok {}) "Recent Form & Results" =
    Except.error "OPENAI_API_KEY environment variable is not set" := rfl

/-- C10 amended: provided chain construction succeeds (OPENAI_API_KEY
is set, so createSignalChain does not throw), analyzeSignal never
propagates an error: a chain invocation failure yields the fixed
fallback with confidence 0.3, a structurally incomplete result is
completed with defaults (confidence 0.5 when missing), and consequently
a stage-2 signal whose completion call fails still writes a partial
report - the fallback - rather than leaving its composite key absent. -/
theorem c10_amended_fallback (ir : Except String RawSignalResult)
    (r : RawSignalResult) (nm e : String) (env : PipelineEnv) (s : Session)
    (p : String × SignalDefinition)
    (hp : p ∈ getAllSignals)
    (hfx : s.collectedData.fixture.isSome = true)
    (hempty : s.partialReports = [])
    (htask : env.signalTask (signalKey p.1 p.2) =
      analyzeSignal (Except.ok ()) (Except.error e) nm) :
    (∃ out, analyzeSignal (Except.ok ()) ir nm = Except.ok out)
    ∧ analyzeSignal (Except.ok ()) (Except.error e) nm =
        Except.ok (fallbackSignalReport nm)
    ∧ (fallbackSignalReport nm).confidence = 3/10
    ∧ (rawIncomplete r = true →
        analyzeSignal (Except.ok ()) (Except.ok r) nm =
          Except.ok (fillDefaults r))
    ∧ (r.confidence = none → (fillDefaults r).confidence = 1/2)
    ∧ ∃ s2, generateSignals env s = Except.ok (s2, signalKeys)
        ∧ s2.partialReports.lookup (signalKey p.1 p.2) =
            some (mkPartialReport p.1 p.2 (fallbackSignalReport nm)) := by
  have hnd : (getAllSignals.map (fun p => signalKey p.1 p.2)).Nodup := by
    decide
  refine ⟨?_, rfl, rfl, ?_, ?_, ?_⟩
  · rcases ir with e2 | r2
    · exact ⟨fallbackSignalReport nm, rfl⟩
    · rcases hinc : rawIncomplete r2 with _ | _
      · exact ⟨⟨r2.insights.getD [], r2.narrative.getD "",
          r2.emoji.getD "", r2.confidence.getD 0⟩,
          by simp [analyzeSignal, hinc]⟩
      · exact ⟨fillDefaults r2, by simp [analyzeSignal, hinc]⟩
  · intro h
    simp [analyzeSignal, h]
  · intro h
    simp [fillDefaults, h]
  · have hgen : generateSignals env s =
        Except.ok (getAllSignals.foldl (sigStepFold env) (s, [])) := by
      unfold generateSignals
      rw [isNone_false_of_isSome _ hfx]
      simp
    refine ⟨(getAllSignals.foldl (sigStepFold env) (s, [])).1, ?_, ?_⟩
    · rw [hgen]
      have hlog := sigFold_log env getAllSignals s []
      have hpair : (getAllSignals.foldl (sigStepFold env) (s, [])) =
          ((getAllSignals.foldl (sigStepFold env) (s, [])).1,
           (getAllSignals.foldl (sigStepFold env) (s, [])).2) := rfl
      rw [hpair, hlog]
      rfl
    · exact sigFold_ok env getAllSignals hnd s [] p
        (fallbackSignalReport nm) hp htask

/-- An oracle whose stage-2 tasks all run analyzeSignal with a
successfully constructed chain whose invocation throws. -/
def cEnvC10 : PipelineEnv :=
  { fixtures := { success := true, data := some [wFixture] },
    signalTask := fun _ =>
      analyzeSignal (Except.ok ()) (Except.error "model timeout")
        "Recent Form & Results",
    merge := fun _ => Except.error "unused",
    synthesis := Except.error "unused" }

/-- The team_context recent-form signal pair for the C10 witness. -/
def wSigPair : String × SignalDefinition :=
  ("team_context",
   { id := "recent_form_results", name := "Recent Form & Results",
     description := "Last 5-10 matches for each team, win/loss patterns",
     dataRequirements := ["standings", "h2h"] })

/-- An incomplete raw result for the C10 witness. -/
def wRawIncomplete : RawSignalResult := { confidence := none }

/-- Witness for the amended C10. -/
theorem c10_amended_fallback_witness :
    (∃ out, analyzeSignal (Except.ok ()) (Except.ok wRawIncomplete)
        "Recent Form & Results" = Except.ok out)
    ∧ analyzeSignal (Except.ok ()) (Except.error "model timeout")
        "Recent Form & Results" =
        Except.ok (fallbackSignalReport "Recent Form & Results")
    ∧ (fallbackSignalReport "Recent Form & Results").confidence = 3/10
    ∧ (rawIncomplete wRawIncomplete = true →
        analyzeSignal (Except.ok ()) (Except.ok wRawIncomplete)
          "Recent Form & Results" =
          Except.ok (fillDefaults wRawIncomplete))
    ∧ (wRawIncomplete.confidence = none →
        (fillDefaults wRawIncomplete).confidence = 1/2)
    ∧ ∃ s2, generateSignals cEnvC10 cSessionFx = Except.ok (s2, signalKeys)
        ∧ s2.partialReports.lookup (signalKey wSigPair.1 wSigPair.2) =
            some (mkPartialReport wSigPair.1 wSigPair.2
              (fallbackSignalReport "Recent Form & Results")) :=
  c10_amended_fallback (Except.ok wRawIncomplete) wRawIncomplete
    "Recent Form & Results" "model timeout" cEnvC10 cSessionFx wSigPair
    (by decide) rfl rfl rfl
